import Mathlib

/-!
# node-sass binding (`src/binding.cpp`): embedding and verified properties

The binding marshals JavaScript values into libsass contexts, runs the engine
and marshals results and errors back.  The embedding below follows
`binding.cpp` function by function.

Conventions of the embedding

* JavaScript values are a first-order datatype (`JsValue`); numbers are the
  integral ones.  JavaScript objects are passed by value, so a function that
  mutates an object returns the new object.  The `options` argument of a
  native method is the object it was called with.
* A C string is its text.  The C string that `CreateString` makes of a
  JavaScript string ends at the first NUL of that string, and the pointer it
  returns is either fresh memory or a string literal (`CString`).  A `char*`
  that the code tests against null, or that it passes as a literal `0`, is an
  `Option`.
* Pointers to `sass_context_wrapper` are addresses (positions) in
  `State.heap`.  Freeing a wrapper records its address in `State.freed`; the
  storage stays where it is, since the source never checks liveness before it
  goes through a pointer.
* Calls into libuv and into host callbacks are recorded as a list of `Event`s
  in program order; what a host callback does when it runs is not part of the
  call.
* Where the source would go through a null pointer or an empty handle, or
  hand a string literal to `free`, the process dies and the function returns
  `none`.
* The engine (libsass) is a parameter: a function on `Sass_Context`.
-/

namespace NodeSass

/-! ## JavaScript values -/

/-- A JavaScript value as the binding sees it through the V8 API. -/
inductive JsValue where
  | undefined : JsValue
  | null : JsValue
  | boolean (b : Bool) : JsValue
  | number (n : Int) : JsValue
  | string (s : String) : JsValue
  | function (id : Nat) : JsValue
  | array (elems : List JsValue) : JsValue
  | object (props : List (String × JsValue)) : JsValue

/-- The own properties of a plain object, in insertion order. -/
abbrev JsObject := List (String × JsValue)

namespace JsValue

/-- V8 `Value::IsUndefined`. -/
def IsUndefined : JsValue → Bool
  | undefined => true
  | _ => false

/-- V8 `Value::IsNull`. -/
def IsNull : JsValue → Bool
  | null => true
  | _ => false

/-- V8 `Value::IsString`. -/
def IsString : JsValue → Bool
  | string _ => true
  | _ => false

/-- V8 `Value::IsArray`. -/
def IsArray : JsValue → Bool
  | array _ => true
  | _ => false

/-- V8 `Value::IsObject`: arrays and functions are objects too. -/
def IsObject : JsValue → Bool
  | array _ => true
  | object _ => true
  | function _ => true
  | _ => false

end JsValue

namespace JsObject

/-- The own property `key` of an object, if it has one. -/
def own (o : JsObject) (key : String) : Option JsValue :=
  (o.find? (fun kv => kv.1 == key)).map (fun kv => kv.2)

/-- V8 `Object::Get` with a string key: the property, or `undefined`. -/
def Get (o : JsObject) (key : String) : JsValue :=
  (o.own key).getD JsValue.undefined

/-- V8 `Object::Set` with a string key: overwrite the property when the object
has it, add it otherwise. -/
def Set : JsObject → String → JsValue → JsObject
  | [], key, value => [(key, value)]
  | kv :: rest, key, value =>
    if kv.1 == key then (key, value) :: rest else kv :: Set rest key value

end JsObject

/-- V8 `Object::Get` on a value that was cast to an object: named properties
of plain objects; arrays and functions have none of the names the binding
asks for. -/
def JsValue.Get (v : JsValue) (key : String) : JsValue :=
  match v with
  | JsValue.object props => JsObject.Get props key
  | _ => JsValue.undefined

/-- V8 `Value::ToObject` where the binding uses it (the `stats` option): the
properties of an object; a primitive gives a wrapper object without own named
properties; `undefined` and `null` have no object, and the handle that comes
back is empty (`none`). -/
def JsValue.ToObject (v : JsValue) : Option JsObject :=
  match v with
  | JsValue.object props => some props
  | JsValue.undefined => none
  | JsValue.null => none
  | _ => some []

/-- V8 `Array::Set(index, value)` on the element list of an array: overwrite
inside the array, otherwise grow it (the holes read as `undefined`). -/
def arraySet (arr : List JsValue) (i : Nat) (value : JsValue) : List JsValue :=
  if i < arr.length then arr.set i value
  else arr ++ List.replicate (i - arr.length) JsValue.undefined ++ [value]

/-- A `char*` as `CreateString` returns it: the text of the C string, and
whether the memory comes from `malloc` (line 11) or is the string literal of
line 7. -/
structure CString where
  text : String
  malloced : Bool

/-- The C string that `strcpy` makes of JavaScript text (lines 10-12): the
characters before the first NUL. -/
def c_str (s : String) : String :=
  String.mk (s.data.takeWhile (fun c => c != Char.ofNat 0))

/-- Source `CreateString` (lines 5-14): the string literal "" for null and for
every value that is not a string, and otherwise fresh memory that holds the
text of the string as a C string. -/
def CreateString (value : JsValue) : CString :=
  if value.IsNull || !value.IsString then { text := "", malloced := false }
  else
    match value with
    | JsValue.string s => { text := c_str s, malloced := true }
    | _ => { text := "", malloced := false }

/-- The libc function `free`.  It is defined for memory that `malloc` returned;
for the string literal of line 7 the behaviour is undefined and the process
aborts (`none`). -/
def free (p : CString) : Option Unit :=
  if p.malloced then some () else none

/-! ## Engine data (libsass) -/

/-- One import entry of libsass, as built by `sass_make_import_entry`. -/
structure Sass_Import where
  path : Option String
  source : Option String
  srcmap : Option String
  deriving DecidableEq, Repr

/-- libsass `sass_make_import_entry(path, source, srcmap)`. -/
def sass_make_import_entry (path source srcmap : Option String) : Sass_Import :=
  { path := path, source := source, srcmap := srcmap }

/-- libsass `sass_make_import_list(length)`: `length` slots, all empty. -/
def sass_make_import_list (length : Nat) : List (Option Sass_Import) :=
  List.replicate length none

/-- The part of a libsass context that the binding reads or writes.
`included_files` is the raw `char**`: `none` is the null pointer, and inside
the array `none` is a null entry (the terminator). -/
structure Sass_Context where
  input : String
  error_status : Int
  output_string : String
  error_json : String
  source_map_string : Option String
  included_files : Option (List (Option String))

/-- libsass `sass_make_data_context` / `sass_make_file_context`: a context
that holds the input and no result yet. -/
def sass_make_context (input : String) : Sass_Context :=
  { input := input, error_status := 0, output_string := "",
    error_json := "", source_map_string := none, included_files := none }

/-! ## FillStatsObj -/

/-- The loop of lines 120-122: walk the array up to its first null entry and
store entry `i` at index `i` of the JavaScript array. -/
def fillIncludedFiles : List (Option String) → Nat → List JsValue → List JsValue
  | some f :: rest, i, arr => fillIncludedFiles rest (i + 1) (arraySet arr i (JsValue.string f))
  | _, _, arr => arr

/-- Source `FillStatsObj` (lines 115-141). -/
def FillStatsObj (stats : JsObject) (ctx : Sass_Context) : JsObject :=
  let arr : List JsValue :=
    match ctx.included_files with
    | some included_files => fillIncludedFiles included_files 0 []
    | none => []
  let stats := JsObject.Set stats "includedFiles" (JsValue.array arr)
  if ctx.error_status ≠ 0 then stats
  else
    let source_map :=
      match ctx.source_map_string with
      | some m => JsValue.string m
      | none => JsValue.string "\x7b\x7d"
    JsObject.Set stats "sourceMap" source_map

/-! ## 32-bit integers and `size_t` -/

/-- The range of V8 `Value::Int32Value()`. -/
abbrev I32 := { v : Int // -2147483648 ≤ v ∧ v < 2147483648 }

/-- ECMAScript ToInt32 on an integral Number: reduce modulo 2^32 into the
signed range.  This is what `Int32Value()` returns for such a Number. -/
def toInt32 (n : Int) : I32 :=
  ⟨(n + 2147483648) % 4294967296 - 2147483648, by omega⟩

/-- The conversion `size_t index = <int32>` of line 288 (64-bit `size_t`):
the value modulo 2^64. -/
def size_t_of_int32 (v : I32) : Nat :=
  (v.val % 18446744073709551616).toNat

/-! ## The context wrapper and the global state -/

/-- A `NanCallback`: a persistent reference to the host function it wraps. -/
structure NanCallback where
  fn : JsValue

/-- The fields of `sass_context_wrapper` that `binding.cpp` uses.  Every
field is a pointer (or a persistent handle) in the source; `none` is null. -/
structure sass_context_wrapper where
  dctx : Option Sass_Context
  fctx : Option Sass_Context
  stats : Option JsObject
  file : Option String
  prev : Option String
  imports : Option (List (Option Sass_Import))
  success_callback : Option NanCallback
  error_callback : Option NanCallback
  importer_callback : Option NanCallback

/-- Modelled from the spec: `sass_make_context_wrapper` is defined in
`sass_context_wrapper.cpp`, which is not among the sources.  A fresh wrapper
has no success callback (the absence of that pointer is what marks the
synchronous path); all its other pointers are absent as well. -/
def sass_make_context_wrapper : sass_context_wrapper :=
  { dctx := none, fctx := none, stats := none, file := none, prev := none,
    imports := none, success_callback := none, error_callback := none,
    importer_callback := none }

/-- What the binding does to the outside world, in program order. -/
inductive Event where
  | call (callback : JsValue) (argv : List JsValue) : Event
  | uv_async_init (ctx_w : Nat) : Event
  | sass_option_set_importer (cookie : Nat) : Event
  | uv_queue_work (ctx_w : Nat) : Event
  | uv_async_send (ctx_w : Nat) : Event
  | uv_cond_wait (ctx_w : Nat) : Event
  | uv_run : Event
  | uv_cond_signal (ctx_w : Nat) : Event
  | uv_stop : Event

/-- How a synchronous native method ends. -/
inductive Completion where
  | returned (value : JsValue) : Completion
  | thrown (error : JsValue) : Completion

/-- The process state: the wrappers ever allocated (`heap`, by address), the
addresses passed to `sass_free_context_wrapper` (`freed`), and the global
`std::vector<sass_context_wrapper*> imports_collection` (line 16). -/
structure State where
  heap : List sass_context_wrapper
  freed : List Nat
  imports_collection : List Nat

namespace State

/-- The state of a process that has not rendered anything yet. -/
def init : State := { heap := [], freed := [], imports_collection := [] }

/-- Allocate a wrapper; its address is the next free position. -/
def alloc (s : State) (w : sass_context_wrapper) : State :=
  { s with heap := s.heap ++ [w] }

/-- Write through a wrapper pointer. -/
def store (s : State) (p : Nat) (w : sass_context_wrapper) : State :=
  { s with heap := s.heap.set p w }

/-- The wrapper at `p` has been allocated and not freed. -/
def live (s : State) (p : Nat) : Prop := p < s.heap.length ∧ p ∉ s.freed

instance (s : State) (p : Nat) : Decidable (s.live p) :=
  inferInstanceAs (Decidable (p < s.heap.length ∧ p ∉ s.freed))

end State

/-- Modelled from the spec: `sass_free_context_wrapper` is defined in
`sass_context_wrapper.cpp`, which is not among the sources.  It releases the
wrapper; from then on the wrapper is no longer in flight. -/
def sass_free_context_wrapper (s : State) (p : Nat) : State :=
  { s with freed := p :: s.freed }

/-! ## The importer bridge -/

/-- Source `dispatched_async_uv_callback` (lines 18-37).  `p` is `req->data`.
The result is `none` where the source goes through a null pointer. -/
def dispatched_async_uv_callback (s : State) (p : Nat) : Option (State × List Event) :=
  match s.heap[p]? with
  | none => none
  | some ctx_w =>
    let s1 : State := { s with imports_collection := s.imports_collection ++ [p] }
    match ctx_w.file, ctx_w.prev, ctx_w.importer_callback with
    | some file, some prev, some importer_callback =>
      let argv := [JsValue.string file, JsValue.string prev,
                   JsValue.number ((s1.imports_collection.length - 1 : Nat) : Int)]
      some (s1, [Event.call importer_callback.fn argv])
    | _, _, _ => none

/-- Source `sass_importer` (lines 39-61), up to the point where the calling
thread blocks.  `cookie` is the wrapper pointer. -/
def sass_importer (s : State) (file prev : String) (cookie : Nat) :
    Option (State × List Event) :=
  match s.heap[cookie]? with
  | none => none
  | some ctx_w =>
    let ctx_w := { ctx_w with file := some file, prev := some prev }
    let s1 := s.store cookie ctx_w
    if ctx_w.success_callback.isSome then
      some (s1, [Event.uv_async_send cookie, Event.uv_cond_wait cookie])
    else
      some (s1, [Event.uv_async_send cookie, Event.uv_run])

/-- Source `sass_importer`, line 63: once the thread resumes, the function
returns whatever import list the wrapper holds. -/
def sass_importer_result (s : State) (cookie : Nat) : Option (List (Option Sass_Import)) :=
  match s.heap[cookie]? with
  | none => none
  | some ctx_w => ctx_w.imports

/-- Source `ExtractOptions` (lines 66-100).  `self` is the address of
`ctx_w`, which becomes the importer cookie.  The result is the wrapper as the
function leaves it and the calls of lines 98-99.  Lines 102-112 copy eleven
scalar options into the engine options; nothing in the binding reads them
back and they are left out. -/
def ExtractOptions (options : JsObject) (cptr : Sass_Context) (self : Nat)
    (ctx_w : sass_context_wrapper) (isFile isSync : Bool) :
    sass_context_wrapper × List Event :=
  let ctx_w : sass_context_wrapper :=
    if isFile then { ctx_w with fctx := some cptr } else { ctx_w with dctx := some cptr }
  let ctx_w : sass_context_wrapper :=
    if !isSync then
      { ctx_w with
        stats := (options.Get "stats").ToObject,
        success_callback := some { fn := options.Get "success" },
        error_callback := some { fn := options.Get "error" } }
    else ctx_w
  let importer_callback := options.Get "importer"
  let ctx_w : sass_context_wrapper :=
    { ctx_w with importer_callback := some { fn := importer_callback } }
  if !importer_callback.IsUndefined then
    (ctx_w, [Event.uv_async_init self, Event.sass_option_set_importer self])
  else
    (ctx_w, [])

/-! ## Asynchronous rendering -/

/-- Source `Render` (lines 187-202).  The new wrapper gets the next free
address; the method returns `undefined`. -/
def Render (s : State) (options : JsObject) : State × List Event :=
  let source_string := CreateString (options.Get "data")
  let dctx := sass_make_context source_string.text
  let p := s.heap.length
  let r := ExtractOptions options dctx p sass_make_context_wrapper false false
  (s.alloc r.1, r.2 ++ [Event.uv_queue_work p])

/-- Source `RenderFile`, lines 235-244: up to and including the queuing of the
work item.  From here on the worker thread may run the engine. -/
def RenderFile_enter (s : State) (options : JsObject) : State × List Event :=
  let input_path := CreateString (options.Get "file")
  let fctx := sass_make_context input_path.text
  let p := s.heap.length
  let r := ExtractOptions options fctx p sass_make_context_wrapper true false
  (s.alloc r.1, r.2 ++ [Event.uv_queue_work p])

/-- Source `RenderFile` (lines 232-248): the part above, then
`free(input_path)` (line 245), then the method returns `undefined`.  The
result is `none` when `free` aborts the process. -/
def RenderFile (s : State) (options : JsObject) : Option (State × List Event) :=
  let input_path := CreateString (options.Get "file")
  let r := RenderFile_enter s options
  match free input_path with
  | none => none
  | some _ => some r

/-- Modelled from the spec: `compile_it` is defined in
`sass_context_wrapper.cpp`, which is not among the sources.  It is the work
item queued by `Render` and `RenderFile`: it runs the engine on the data
context of the wrapper when there is one and on its file context otherwise,
and the engine leaves its result in that context. -/
def compile_it (engine : Sass_Context → Sass_Context) (s : State) (p : Nat) : Option State :=
  match s.heap[p]? with
  | none => none
  | some ctx_w =>
    match ctx_w.dctx, ctx_w.fctx with
    | some d, _ => some (s.store p { ctx_w with dctx := some (engine d) })
    | none, some f => some (s.store p { ctx_w with fctx := some (engine f) })
    | none, none => none

/-- Source `make_callback` (lines 143-185).  `p` is `req->data`.  The result
is `none` where the source goes through a null pointer. -/
def make_callback (s : State) (p : Nat) : Option (State × List Event) :=
  match s.heap[p]? with
  | none => none
  | some ctx_w =>
    match ctx_w.stats with
    | none => none
    | some stats0 =>
      let r : Option (Sass_Context × JsObject) :=
        match ctx_w.dctx with
        | some d => some (d, FillStatsObj stats0 d)
        | none =>
          match ctx_w.fctx with
          | some f => some (f, FillStatsObj stats0 f)
          | none => none
      match r with
      | none => none
      | some (ctx, stats) =>
        let error_status := ctx.error_status
        let s1 := s.store p { ctx_w with stats := some stats }
        if error_status = 0 then
          match ctx_w.success_callback with
          | none => none
          | some success_callback =>
            let val := ctx.output_string
            let argv := [JsValue.string val, JsObject.Get stats "sourceMap"]
            some (sass_free_context_wrapper s1 p, [Event.call success_callback.fn argv])
        else
          match ctx_w.error_callback with
          | none => none
          | some error_callback =>
            let err := ctx.error_json
            let argv := [JsValue.string err, JsValue.number error_status]
            some (sass_free_context_wrapper s1 p, [Event.call error_callback.fn argv])

/-! ## Synchronous rendering -/

/-- Source `RenderSync`, lines 207-213: everything before the engine runs. -/
def RenderSync_enter (s : State) (options : JsObject) : State × List Event :=
  let source_string := CreateString (options.Get "data")
  let dctx := sass_make_context source_string.text
  let p := s.heap.length
  let r := ExtractOptions options dctx p sass_make_context_wrapper false true
  (s.alloc r.1, r.2)

/-- Source `RenderSync`, lines 215-229: everything after the engine has run.
`p` is `ctx_w` and `ctx` the context as the engine left it.  The result is
the state, the `stats` object of the options as `FillStatsObj` leaves it, and
how the method ends; it is `none` when `stats` has no object, where
`FillStatsObj` goes through an empty handle. -/
def RenderSync_leave (s : State) (options : JsObject) (p : Nat) (ctx : Sass_Context) :
    Option (State × JsObject × Completion) :=
  match (options.Get "stats").ToObject with
  | none => none
  | some stats0 =>
    let stats := FillStatsObj stats0 ctx
    if ctx.error_status = 0 then
      let output := JsValue.string ctx.output_string
      some (s, stats, Completion.returned output)
    else
      let error := JsValue.string ctx.error_json
      some (sass_free_context_wrapper s p, stats, Completion.thrown error)

/-- Source `RenderSync` (lines 204-230) with `compile_data` as the engine. -/
def RenderSync (compile_data : Sass_Context → Sass_Context) (s : State) (options : JsObject) :
    Option (State × JsObject × Completion) :=
  let s1 := (RenderSync_enter s options).1
  let ctx := compile_data (sass_make_context (CreateString (options.Get "data")).text)
  RenderSync_leave s1 options s.heap.length ctx

/-- Source `RenderFileSync`, lines 253-259. -/
def RenderFileSync_enter (s : State) (options : JsObject) : State × List Event :=
  let input_path := CreateString (options.Get "file")
  let fctx := sass_make_context input_path.text
  let p := s.heap.length
  let r := ExtractOptions options fctx p sass_make_context_wrapper true true
  (s.alloc r.1, r.2)

/-- Source `RenderFileSync`, lines 261-276: everything after the engine has
run.  `input_path` is the pointer of line 254.  The result is `none` when
`stats` has no object (line 261) and when `free(input_path)` aborts the
process (line 262). -/
def RenderFileSync_leave (s : State) (options : JsObject) (p : Nat) (ctx : Sass_Context) :
    Option (State × JsObject × Completion) :=
  let input_path := CreateString (options.Get "file")
  match (options.Get "stats").ToObject with
  | none => none
  | some stats0 =>
    let stats := FillStatsObj stats0 ctx
    match free input_path with
    | none => none
    | some _ =>
      if ctx.error_status = 0 then
        let output := JsValue.string ctx.output_string
        some (s, stats, Completion.returned output)
      else
        let error := JsValue.string ctx.error_json
        some (sass_free_context_wrapper s p, stats, Completion.thrown error)

/-- Source `RenderFileSync` (lines 250-277) with `compile_file` as the engine. -/
def RenderFileSync (compile_file : Sass_Context → Sass_Context) (s : State)
    (options : JsObject) : Option (State × JsObject × Completion) :=
  let s1 := (RenderFileSync_enter s options).1
  let ctx := compile_file (sass_make_context (CreateString (options.Get "file")).text)
  RenderFileSync_leave s1 options s.heap.length ctx

/-! ## ImportedCallback -/

/-- `Handle<Array>::Cast` followed by element access: the elements of an
array. -/
def JsValue.elements : JsValue → List JsValue
  | JsValue.array elems => elems
  | _ => []

/-- Lines 307-311 (and again 316-320): the import entry for one record. -/
def import_entry_of_object (object : JsValue) : Sass_Import :=
  let path := CreateString (object.Get "file")
  let contents := CreateString (object.Get "contents")
  sass_make_import_entry (some path.text)
    (if contents.text = "" then none else some contents.text) none

/-- Lines 302-311: one turn of the loop over the array, at index `i`. -/
def import_loop_body (array : List JsValue) (imports : List (Option Sass_Import)) (i : Nat) :
    List (Option Sass_Import) :=
  let value := array.getD i JsValue.undefined
  if !value.IsObject then imports
  else imports.set i (some (import_entry_of_object value))

/-- Lines 296-325: the import list that the answer of the provider is turned
into.  `file` is `ctx_w->file`. -/
def imports_of_returned_value (file : Option String) (returned_value : JsValue) :
    List (Option Sass_Import) :=
  if returned_value.IsArray then
    let array := returned_value.elements
    (List.range array.length).foldl (import_loop_body array)
      (sass_make_import_list array.length)
  else if returned_value.IsObject then
    (sass_make_import_list 1).set 0 (some (import_entry_of_object returned_value))
  else
    (sass_make_import_list 1).set 0 (some (sass_make_import_entry file none none))

/-- Source `ImportedCallback` (lines 279-342).  `index32` is
`options->Get("index")->Int32Value()` and `returned_value` is
`options->Get("objectLiteral")`.  (Line 285 makes a C string of `index` that
nothing reads or frees.)  The result is the new state, the libuv
calls made and the value returned to the host; it is `none` where the source
goes through a pointer that was never allocated. -/
def ImportedCallback (s : State) (index32 : I32) (returned_value : JsValue) :
    Option (State × List Event × JsValue) :=
  let index := size_t_of_int32 index32
  if index ≥ s.imports_collection.length then
    some (s, [], JsValue.undefined)
  else
    match s.imports_collection[index]? with
    | none => none
    | some p =>
      match s.heap[p]? with
      | none => none
      | some ctx_w =>
        let imports := imports_of_returned_value ctx_w.file returned_value
        let s1 := s.store p { ctx_w with imports := some imports }
        let stop := if ctx_w.success_callback.isNone then [Event.uv_stop] else []
        some (s1, [Event.uv_cond_signal p] ++ stop, JsValue.number 0)

/-! ## The operations of the binding as a transition system -/

/-- One operation of the binding, run to its end (or, for a render method, to
the point named): a step exists whenever the function returns.  Nothing is
assumed about who calls an operation, when, or with which arguments. -/
inductive Step : State → State → Prop where
  | Render (s : State) (options : JsObject) : Step s (Render s options).1
  | RenderFile_enter (s : State) (options : JsObject) :
      Step s (RenderFile_enter s options).1
  | RenderSync_enter (s : State) (options : JsObject) : Step s (RenderSync_enter s options).1
  | RenderFileSync_enter (s : State) (options : JsObject) :
      Step s (RenderFileSync_enter s options).1
  | compile_it (s : State) (engine : Sass_Context → Sass_Context) (p : Nat) (s1 : State) :
      compile_it engine s p = some s1 → Step s s1
  | sass_importer (s : State) (file prev : String) (p : Nat) (s1 : State) (ev : List Event) :
      sass_importer s file prev p = some (s1, ev) → Step s s1
  | dispatched_async_uv_callback (s : State) (p : Nat) (s1 : State) (ev : List Event) :
      dispatched_async_uv_callback s p = some (s1, ev) → Step s s1
  | ImportedCallback (s : State) (index32 : I32) (returned_value : JsValue) (s1 : State)
      (ev : List Event) (r : JsValue) :
      ImportedCallback s index32 returned_value = some (s1, ev, r) → Step s s1
  | make_callback (s : State) (p : Nat) (s1 : State) (ev : List Event) :
      make_callback s p = some (s1, ev) → Step s s1
  | RenderSync_leave (s : State) (options : JsObject) (p : Nat) (ctx : Sass_Context)
      (s1 : State) (stats : JsObject) (r : Completion) :
      RenderSync_leave s options p ctx = some (s1, stats, r) → Step s s1
  | RenderFileSync_leave (s : State) (options : JsObject) (p : Nat) (ctx : Sass_Context)
      (s1 : State) (stats : JsObject) (r : Completion) :
      RenderFileSync_leave s options p ctx = some (s1, stats, r) → Step s s1

/-- Any number of operations, one after the other. -/
abbrev Steps : State → State → Prop := Relation.ReflTransGen Step

/-- The states the process can be in. -/
def Reachable (s : State) : Prop := Steps State.init s

/-- Every address in the registry is the address of an allocated wrapper. -/
def RegistryAllocated (s : State) : Prop :=
  ∀ p ∈ s.imports_collection, p < s.heap.length

instance (s : State) : Decidable (RegistryAllocated s) :=
  inferInstanceAs (Decidable (∀ p ∈ s.imports_collection, p < s.heap.length))

/-- Wrapper `w1` has the callbacks of `w` and the same pointers set: what
`ExtractOptions` installed is still there. -/
def SameShape (w w1 : sass_context_wrapper) : Prop :=
  w1.success_callback = w.success_callback ∧ w1.error_callback = w.error_callback ∧
  w1.stats.isSome = w.stats.isSome ∧ w1.dctx.isSome = w.dctx.isSome ∧
  w1.fctx.isSome = w.fctx.isSome

/-- Every wrapper of `s` is still at its address in `s1`, with the callbacks
and the contexts `ExtractOptions` gave it. -/
def KeepsShape (s s1 : State) : Prop :=
  ∀ (q : Nat) (w : sass_context_wrapper), s.heap[q]? = some w →
    ∃ w1 : sass_context_wrapper, s1.heap[q]? = some w1 ∧ SameShape w w1

/-- The import entry of a record in the amended wording: the path is the
`file` property, cut at its first NUL, when that property is a string, and
the empty string otherwise; the contents are the `contents` property, cut at
its first NUL, when that property is a string and the cut text is not empty,
and absent otherwise; there is no source map. -/
def entry_cut_at_nul (record : JsValue) : Sass_Import :=
  { path := some (match record.Get "file" with
                  | JsValue.string f => c_str f
                  | _ => ""),
    source := (match record.Get "contents" with
               | JsValue.string c => if c_str c ≠ "" then some (c_str c) else none
               | _ => none),
    srcmap := none }

/-- The import entry that the specification describes for one record: the
path is the `file` property when that is a string and the empty string
otherwise; the contents are the `contents` property when that is a non-empty
string and absent otherwise; there is no source map. -/
def entry_spec (record : JsValue) : Sass_Import :=
  { path := some (match record.Get "file" with
                  | JsValue.string f => f
                  | _ => ""),
    source := (match record.Get "contents" with
               | JsValue.string c => if c ≠ "" then some c else none
               | _ => none),
    srcmap := none }

/-! ### A concrete run: one asynchronous render with one import -/

/-- The options of `render({data: '@import "a";', importer: f, ...})`. -/
def demo_options : JsObject :=
  [("data", JsValue.string "@import \"a\";"), ("stats", JsValue.object []),
   ("success", JsValue.function 1), ("error", JsValue.function 2),
   ("importer", JsValue.function 3)]

/-- An engine run that succeeds with some CSS. -/
def demo_engine (ctx : Sass_Context) : Sass_Context :=
  { ctx with error_status := 0, output_string := "b\x7bc:d\x7d" }

/-- The wrapper of the demo render when the render has completed. -/
def demo_wrapper_done : sass_context_wrapper :=
  { dctx := some { input := "@import \"a\";", error_status := 0, output_string := "b\x7bc:d\x7d",
                   error_json := "", source_map_string := none, included_files := none },
    fctx := none,
    stats := some [("includedFiles", JsValue.array []), ("sourceMap", JsValue.string "\x7b\x7d")],
    file := some "a", prev := some "stdin",
    imports := some [some { path := some "a", source := none, srcmap := none }],
    success_callback := some { fn := JsValue.function 1 },
    error_callback := some { fn := JsValue.function 2 },
    importer_callback := some { fn := JsValue.function 3 } }

/-- The state after the demo render has completed: its wrapper has been freed
and its handle 0 is still in the registry. -/
def demo_state_done : State :=
  { heap := [demo_wrapper_done], freed := [0], imports_collection := [0] }

/-- The demo wrapper while the render is in flight, before the import. -/
def demo_wrapper_rendering : sass_context_wrapper :=
  { demo_wrapper_done with
    dctx := some (sass_make_context "@import \"a\";"), stats := some [],
    file := none, prev := none, imports := none }

/-- The state right after `Render` has returned. -/
def demo_state_rendering : State :=
  { heap := [demo_wrapper_rendering], freed := [], imports_collection := [] }

/-- The state after `sass_importer` has stored the request. -/
def demo_state_requested : State :=
  { heap := [{ demo_wrapper_rendering with file := some "a", prev := some "stdin" }],
    freed := [], imports_collection := [] }

/-- The state after the request has been dispatched to the host. -/
def demo_state_dispatched : State :=
  { demo_state_requested with imports_collection := [0] }

/-- The state after the host has answered `null` through `ImportedCallback`. -/
def demo_state_answered : State :=
  { heap := [{ demo_wrapper_rendering with
               file := some "a", prev := some "stdin",
               imports := some [some { path := some "a", source := none, srcmap := none }] }],
    freed := [], imports_collection := [0] }

/-- The state after the engine has finished. -/
def demo_state_compiled : State :=
  { heap := [{ demo_wrapper_done with stats := some [] }],
    freed := [], imports_collection := [0] }

/-- An engine result of a failed compilation that still reports two files. -/
def demo_failed_ctx : Sass_Context :=
  { input := "a", error_status := 1, output_string := "", error_json := "boom",
    source_map_string := some "map", included_files := some [some "a.scss", some "b.scss", none] }

/-- The demo state when the engine has failed instead. -/
def demo_state_failed : State :=
  { heap := [{ demo_wrapper_done with stats := some [], dctx := some demo_failed_ctx }],
    freed := [], imports_collection := [0] }

/-- Options of a render without the `stats` option. -/
def demo_options_no_stats : JsObject :=
  [("data", JsValue.string "a"), ("success", JsValue.function 1),
   ("error", JsValue.function 2)]

/-- The state after `Render` with `demo_options_no_stats` and a successful
engine run. -/
def demo_state_no_stats : State :=
  { heap := [{ dctx := some { input := "a", error_status := 0,
                              output_string := "b\x7bc:d\x7d", error_json := "",
                              source_map_string := none, included_files := none },
               fctx := none, stats := none, file := none, prev := none, imports := none,
               success_callback := some { fn := JsValue.function 1 },
               error_callback := some { fn := JsValue.function 2 },
               importer_callback := some { fn := JsValue.undefined } }],
    freed := [], imports_collection := [] }

/-- Options of a file render: a string `file` and a `stats` object. -/
def demo_file_options : JsObject :=
  [("file", JsValue.string "a.scss"), ("stats", JsValue.object []),
   ("success", JsValue.function 1), ("error", JsValue.function 2)]

/-- A record whose strings have a NUL character inside. -/
def demo_record_nul : JsValue :=
  JsValue.object [("file", JsValue.string "a\x00b"), ("contents", JsValue.string "\x00abc")]

/-- An answer of the provider: a record, a number, and an array. -/
def demo_answer : JsValue :=
  JsValue.array
    [JsValue.object [("file", JsValue.string "f.scss"), ("contents", JsValue.string "x")],
     JsValue.number 3,
     JsValue.array []]

/-- The state after the same context has been dispatched a second time. -/
def demo_state_twice : State :=
  { demo_state_dispatched with imports_collection := [0, 0] }

/-- The state right after the entry of a render method: `Render`, `RenderFile`
up to the queuing of the work item, or the part of `RenderSync`,
`RenderFileSync` before the engine runs, as `isFile` and `isSync` say. -/
def start_render (s : State) (options : JsObject) (isFile isSync : Bool) : State :=
  match isFile, isSync with
  | false, false => (Render s options).1
  | true, false => (RenderFile_enter s options).1
  | false, true => (RenderSync_enter s options).1
  | true, true => (RenderFileSync_enter s options).1

/-- The state in which an asynchronous render method leaves the process when
it returns: `RenderFile` when `isFile`, `Render` otherwise; `none` when the
method aborts the process. -/
def start_async (s : State) (options : JsObject) (isFile : Bool) : Option State :=
  if isFile then (RenderFile s options).map Prod.fst else some (Render s options).1

/-- The largest size of a `std::vector<sass_context_wrapper*>` (`max_size()`
with 8-byte pointers and a 64-bit `ptrdiff_t`). -/
def vector_max_size : Nat := 1152921504606846975

/-! ## Properties -/

/-! ### Objects and arrays -/

theorem JsObject.own_Set_same (o : JsObject) (key : String) (value : JsValue) :
    (JsObject.Set o key value).own key = some value := by
  induction o with
  | nil => simp [JsObject.Set, JsObject.own]
  | cons kv rest ih =>
    obtain ⟨k, v⟩ := kv
    simp only [JsObject.own] at ih
    by_cases h : k = key
    · simp [JsObject.Set, JsObject.own, h]
    · simp [JsObject.Set, JsObject.own, h, ih]

theorem JsObject.own_Set_other (o : JsObject) (key other : String) (value : JsValue)
    (hne : other ≠ key) : (JsObject.Set o key value).own other = o.own other := by
  induction o with
  | nil => simp [JsObject.Set, JsObject.own, Ne.symm hne]
  | cons kv rest ih =>
    obtain ⟨k, v⟩ := kv
    simp only [JsObject.own] at ih
    by_cases h : k = key
    · subst h
      simp [JsObject.Set, JsObject.own, Ne.symm hne, List.find?_cons]
    · by_cases h3 : k = other
      · subst h3
        simp [JsObject.Set, JsObject.own, h, List.find?_cons]
      · simp [JsObject.Set, JsObject.own, h, h3, List.find?_cons, ih]

theorem arraySet_length (arr : List JsValue) (value : JsValue) :
    arraySet arr arr.length value = arr ++ [value] := by
  simp [arraySet]

theorem fillIncludedFiles_terminated (names : List String) (rest : List (Option String))
    (i : Nat) (arr : List JsValue) (hi : arr.length = i) :
    fillIncludedFiles (names.map some ++ none :: rest) i arr
      = arr ++ names.map JsValue.string := by
  induction names generalizing i arr with
  | nil => simp [fillIncludedFiles]
  | cons f fs ih =>
    subst hi
    have step := ih (arr.length + 1) (arr ++ [JsValue.string f]) (by simp)
    simp only [List.map_cons, List.cons_append, fillIncludedFiles, arraySet_length]
    simpa using step

/-! ### FillStatsObj -/

/-- C5.  For every null-terminated list of included files that the engine
reports (the names, then a null entry, then whatever follows in memory),
`FillStatsObj` sets `stats.includedFiles` to the array of those names, same
length and same order; when the engine reports no list it sets the empty
array.  Nothing is assumed about the error status, so this holds for failed
compilations as well. -/
theorem FillStatsObj_includedFiles (stats : JsObject) (ctx : Sass_Context) :
    (∀ (names : List String) (rest : List (Option String)),
        ctx.included_files = some (names.map some ++ none :: rest) →
        (FillStatsObj stats ctx).own "includedFiles"
            = some (JsValue.array (names.map JsValue.string))) ∧
    (ctx.included_files = none →
        (FillStatsObj stats ctx).own "includedFiles" = some (JsValue.array [])) := by
  have key : ∀ arr : List JsValue,
      (if ctx.error_status ≠ 0 then JsObject.Set stats "includedFiles" (JsValue.array arr)
        else JsObject.Set (JsObject.Set stats "includedFiles" (JsValue.array arr)) "sourceMap"
          (match ctx.source_map_string with
            | some m => JsValue.string m
            | none => JsValue.string "\x7b\x7d")).own "includedFiles"
        = some (JsValue.array arr) := by
    intro arr
    split
    · exact JsObject.own_Set_same _ _ _
    · rw [JsObject.own_Set_other _ _ _ _ (by decide)]
      exact JsObject.own_Set_same _ _ _
  constructor
  · intro names rest h
    unfold FillStatsObj
    simp only [h]
    rw [fillIncludedFiles_terminated names rest 0 [] rfl]
    exact key _
  · intro h
    unfold FillStatsObj
    simp only [h]
    exact key _

/-- C6.  `FillStatsObj` writes `stats.sourceMap` exactly when the error status
of the engine is 0: then the property holds the source-map string of the
engine when there is one and the two-character string of an opening and a
closing brace otherwise; when the status is
not 0 the `sourceMap` property of the object (its presence and its value) is
what it was before the call. -/
theorem FillStatsObj_sourceMap (stats : JsObject) (ctx : Sass_Context) :
    (ctx.error_status = 0 →
        (FillStatsObj stats ctx).own "sourceMap"
          = some (match ctx.source_map_string with
                  | some m => JsValue.string m
                  | none => JsValue.string "\x7b\x7d")) ∧
    (ctx.error_status ≠ 0 →
        (FillStatsObj stats ctx).own "sourceMap" = stats.own "sourceMap") := by
  constructor
  · intro h
    unfold FillStatsObj
    simp only [h, ne_eq, not_true_eq_false, if_false]
    exact JsObject.own_Set_same _ _ _
  · intro h
    unfold FillStatsObj
    simp only [ne_eq, h, not_false_eq_true, if_true]
    exact JsObject.own_Set_other _ _ _ _ (by decide)

/-! ### Completion of a render -/

theorem make_callback_eq (s : State) (p : Nat) (ctx_w : sass_context_wrapper)
    (ctx : Sass_Context) (stats : JsObject) (success error : NanCallback)
    (hw : s.heap[p]? = some ctx_w)
    (hstats : ctx_w.stats = some stats)
    (hsuccess : ctx_w.success_callback = some success)
    (herror : ctx_w.error_callback = some error)
    (hctx : ctx_w.dctx = some ctx ∨ (ctx_w.dctx = none ∧ ctx_w.fctx = some ctx)) :
    ∃ s1 : State,
      make_callback s p = some (s1,
        [if ctx.error_status = 0 then
            Event.call success.fn
              [JsValue.string ctx.output_string,
               JsObject.Get (FillStatsObj stats ctx) "sourceMap"]
          else
            Event.call error.fn
              [JsValue.string ctx.error_json, JsValue.number ctx.error_status]]) := by
  unfold make_callback
  rcases hctx with hd | ⟨hd, hf⟩
  · by_cases hz : ctx.error_status = 0
    · simp [hw, hstats, hsuccess, hd, hz]
    · simp [hw, hstats, herror, hd, hz]
  · by_cases hz : ctx.error_status = 0
    · simp [hw, hstats, hsuccess, hd, hf, hz]
    · simp [hw, hstats, herror, hd, hf, hz]

theorem free_CreateString (v : JsValue) (h : v.IsString = true) :
    free (CreateString v) = some () := by
  cases v <;> simp_all [free, CreateString, JsValue.IsString, JsValue.IsNull]

/-- C2, as stated, fails.  `RenderSync` called without a `stats` option, and
`RenderFileSync` called without a string `file`, neither return nor throw:
`FillStatsObj` goes through an empty handle in the first call, and
`free(input_path)` is given a string literal in the second. -/
theorem RenderSync_neither_returns_nor_throws :
    RenderSync demo_engine State.init demo_options_no_stats = none ∧
    RenderFileSync demo_engine State.init demo_options = none :=
  ⟨rfl, rfl⟩

/-- C2, amended.  Let the `stats` option have an object (it is neither
`undefined` nor `null`).  Then `RenderSync`, and `RenderFileSync` when the
`file` option is a string, end in exactly one of two ways, decided by the
error status the engine leaves: with status 0 the call returns the output CSS
of the engine, with any other status it throws the error JSON of the engine
and returns nothing. -/
theorem RenderSync_returns_or_throws (engine : Sass_Context → Sass_Context) (s : State)
    (options : JsObject) (stats0 : JsObject)
    (hstats : (options.Get "stats").ToObject = some stats0) :
    (∃ (s1 : State) (stats : JsObject),
      RenderSync engine s options
        = some (s1, stats,
            let ctx := engine (sass_make_context (CreateString (options.Get "data")).text)
            if ctx.error_status = 0 then Completion.returned (JsValue.string ctx.output_string)
            else Completion.thrown (JsValue.string ctx.error_json))) ∧
    ((options.Get "file").IsString = true →
      ∃ (s1 : State) (stats : JsObject),
        RenderFileSync engine s options
          = some (s1, stats,
              let ctx := engine (sass_make_context (CreateString (options.Get "file")).text)
              if ctx.error_status = 0 then
                Completion.returned (JsValue.string ctx.output_string)
              else Completion.thrown (JsValue.string ctx.error_json))) := by
  constructor
  · simp only [RenderSync, RenderSync_leave, hstats]
    split
    · exact ⟨_, _, rfl⟩
    · exact ⟨_, _, rfl⟩
  · intro hfile
    simp only [RenderFileSync, RenderFileSync_leave, hstats, free_CreateString _ hfile]
    split
    · exact ⟨_, _, rfl⟩
    · exact ⟨_, _, rfl⟩

/-! ### The import list built by ImportedCallback -/

theorem import_entry_of_object_eq (record : JsValue) :
    import_entry_of_object record = entry_cut_at_nul record := by
  have hfile : (CreateString (record.Get "file")).text
      = (match record.Get "file" with
          | JsValue.string f => c_str f
          | _ => "") := by
    cases record.Get "file" <;> simp [CreateString, JsValue.IsNull, JsValue.IsString]
  have hcontents : (if (CreateString (record.Get "contents")).text = "" then none
        else some (CreateString (record.Get "contents")).text)
      = (match record.Get "contents" with
          | JsValue.string c => if c_str c ≠ "" then some (c_str c) else none
          | _ => none) := by
    cases record.Get "contents" <;> simp [CreateString, JsValue.IsNull, JsValue.IsString]
  simp only [import_entry_of_object, entry_cut_at_nul, sass_make_import_entry, hfile,
    hcontents]

theorem import_loop_spec (array : List JsValue) (k : Nat) :
    ((List.range k).foldl (import_loop_body array)
        (sass_make_import_list array.length)).length = array.length ∧
    ∀ i : Nat, i < array.length →
      ((List.range k).foldl (import_loop_body array) (sass_make_import_list array.length))[i]?
        = some (if i < k ∧ (array.getD i JsValue.undefined).IsObject = true then
                  some (import_entry_of_object (array.getD i JsValue.undefined))
                else none) := by
  induction k with
  | zero =>
    simp [sass_make_import_list, List.getElem?_replicate]
  | succ k ih =>
    obtain ⟨hlen, hget⟩ := ih
    rw [List.range_succ, List.foldl_append]
    simp only [List.foldl_cons, List.foldl_nil]
    by_cases hobj : (array.getD k JsValue.undefined).IsObject = true
    · have hbody : ∀ l : List (Option Sass_Import), import_loop_body array l k
          = l.set k (some (import_entry_of_object (array.getD k JsValue.undefined))) := by
        intro l
        simp only [import_loop_body, hobj, Bool.not_true, Bool.false_eq_true, if_false]
      rw [hbody]
      constructor
      · rw [List.length_set, hlen]
      · intro i hi
        by_cases hik : i = k
        · subst hik
          rw [List.getElem?_set_self (by rw [hlen]; exact hi)]
          simp only [hobj, Nat.lt_succ_self, and_self, if_true]
        · rw [List.getElem?_set_ne (fun e => hik e.symm), hget i hi]
          have : (i < k + 1) ↔ (i < k) := by omega
          simp only [this]
    · have hbody : ∀ l : List (Option Sass_Import), import_loop_body array l k = l := by
        intro l
        have hf : (array.getD k JsValue.undefined).IsObject = false := by
          cases h : (array.getD k JsValue.undefined).IsObject
          · rfl
          · exact absurd h hobj
        simp only [import_loop_body, hf, Bool.not_false, if_true]
      rw [hbody]
      refine ⟨hlen, ?_⟩
      intro i hi
      rw [hget i hi]
      by_cases hik : i = k
      · subst hik
        rw [if_neg (fun h => hobj h.2), if_neg (fun h => hobj h.2)]
      · have : (i < k + 1) ↔ (i < k) := by omega
        simp only [this]

theorem State.store_heap_get (s : State) (p : Nat) (ctx_w w : sass_context_wrapper)
    (hw : s.heap[p]? = some ctx_w) : (s.store p w).heap[p]? = some w := by
  have hp : p < s.heap.length := by
    rcases List.getElem?_eq_some.mp hw with ⟨h, _⟩
    exact h
  simp [State.store, List.getElem?_set, hp]

theorem ImportedCallback_valid (s : State) (index32 : I32) (returned_value : JsValue) (p : Nat)
    (ctx_w : sass_context_wrapper)
    (hidx : s.imports_collection[size_t_of_int32 index32]? = some p)
    (hw : s.heap[p]? = some ctx_w) :
    ImportedCallback s index32 returned_value
      = some (s.store p { ctx_w with
                imports := some (imports_of_returned_value ctx_w.file returned_value) },
              [Event.uv_cond_signal p]
                ++ (if ctx_w.success_callback.isNone then [Event.uv_stop] else []),
              JsValue.number 0) := by
  have hlt : size_t_of_int32 index32 < s.imports_collection.length := by
    rcases List.getElem?_eq_some.mp hidx with ⟨h, _⟩
    exact h
  unfold ImportedCallback
  simp only [ge_iff_le, Nat.not_le.mpr hlt, if_false, hidx, hw]

theorem imports_of_array (file : Option String) (elems : List JsValue) :
    (imports_of_returned_value file (JsValue.array elems)).length = elems.length ∧
    ∀ (i : Nat) (hi : i < elems.length),
      (imports_of_returned_value file (JsValue.array elems))[i]?
        = some (if elems[i].IsObject = true then some (entry_cut_at_nul elems[i]) else none) := by
  have hloop := import_loop_spec elems elems.length
  have hval : imports_of_returned_value file (JsValue.array elems)
      = (List.range elems.length).foldl (import_loop_body elems)
          (sass_make_import_list elems.length) := by
    simp only [imports_of_returned_value, JsValue.IsArray, JsValue.elements, if_true]
  rw [hval]
  refine ⟨hloop.1, ?_⟩
  intro i hi
  rw [hloop.2 i hi]
  have hget : elems.getD i JsValue.undefined = elems[i] := by
    simp [List.getD_eq_getElem?_getD, List.getElem?_eq_getElem hi]
  rw [hget, import_entry_of_object_eq]
  simp only [hi, true_and]

theorem imports_of_object (file : Option String) (v : JsValue) (ha : v.IsArray = false)
    (ho : v.IsObject = true) :
    imports_of_returned_value file v = [some (entry_cut_at_nul v)] := by
  simp [imports_of_returned_value, ha, ho, sass_make_import_list,
    import_entry_of_object_eq]

theorem imports_of_other (file : Option String) (v : JsValue) (ha : v.IsArray = false)
    (ho : v.IsObject = false) :
    imports_of_returned_value file v
      = [some { path := file, source := none, srcmap := none }] := by
  simp [imports_of_returned_value, ha, ho, sass_make_import_list, sass_make_import_entry]

/-- C3, as stated, fails.  For the record `{file: "a\0b", contents: "\0abc"}`
the entry that `ImportedCallback` stores has path "a" and no contents, while
the entry the claim describes has the whole `file` string as path and the
non-empty `contents` string as contents. -/
theorem ImportedCallback_cuts_at_nul :
    (∃ (s1 : State) (ev : List Event),
      ImportedCallback demo_state_dispatched (toInt32 0) demo_record_nul
        = some (s1, ev, JsValue.number 0) ∧
      sass_importer_result s1 0
        = some [some { path := some "a", source := none, srcmap := none }]) ∧
    entry_spec demo_record_nul
      = { path := some "a\x00b", source := some "\x00abc", srcmap := none } ∧
    [some (entry_spec demo_record_nul)]
      ≠ [some ({ path := some "a", source := none, srcmap := none } : Sass_Import)] :=
  ⟨⟨_, _, rfl, rfl⟩, rfl, by decide⟩

/-- C3, amended.  When the handle `index32` resolves to a context (the wrapper
at `p`), `ImportedCallback` stores in it the import list for the answer of the
provider, record by record and in order.  A single record (an object that is
no array) gives a list of exactly one entry.  An array of n elements gives a
list of n slots, and for every i below n slot i holds the entry of element i
when that element is an object and is empty otherwise.  The entry of a record
(`entry_cut_at_nul`) has as path the `file` string cut at its first NUL, or
the empty string when `file` is no string, and as contents the `contents`
string cut at its first NUL when that text is not empty, and no contents
otherwise. -/
theorem ImportedCallback_import_list (s : State) (index32 : I32) (returned_value : JsValue)
    (p : Nat) (ctx_w : sass_context_wrapper)
    (hidx : s.imports_collection[size_t_of_int32 index32]? = some p)
    (hw : s.heap[p]? = some ctx_w) :
    ∃ (s1 : State) (ev : List Event) (imports : List (Option Sass_Import)),
      ImportedCallback s index32 returned_value = some (s1, ev, JsValue.number 0) ∧
      sass_importer_result s1 p = some imports ∧
      (returned_value.IsArray = false → returned_value.IsObject = true →
        imports = [some (entry_cut_at_nul returned_value)]) ∧
      (∀ elems : List JsValue, returned_value = JsValue.array elems →
        imports.length = elems.length ∧
        ∀ (i : Nat) (hi : i < elems.length),
          imports[i]?
            = some (if elems[i].IsObject = true then some (entry_cut_at_nul elems[i])
                    else none)) := by
  refine ⟨_, _, imports_of_returned_value ctx_w.file returned_value,
    ImportedCallback_valid s index32 returned_value p ctx_w hidx hw, ?_, ?_, ?_⟩
  · simp only [sass_importer_result, State.store_heap_get s p ctx_w _ hw]
  · intro ha ho
    exact imports_of_object _ _ ha ho
  · intro elems he
    subst he
    exact imports_of_array _ _

theorem sass_importer_eq (s : State) (file prev : String) (p : Nat)
    (ctx_w : sass_context_wrapper) (hw : s.heap[p]? = some ctx_w) :
    sass_importer s file prev p
      = some (s.store p { ctx_w with file := some file, prev := some prev },
              [Event.uv_async_send p,
               if ctx_w.success_callback.isSome then Event.uv_cond_wait p
               else Event.uv_run]) := by
  unfold sass_importer
  simp only [hw]
  split <;> rfl

theorem dispatched_async_uv_callback_eq (s : State) (p : Nat) (ctx_w : sass_context_wrapper)
    (file prev : String) (importer : NanCallback)
    (hw : s.heap[p]? = some ctx_w) (hfile : ctx_w.file = some file)
    (hprev : ctx_w.prev = some prev) (himporter : ctx_w.importer_callback = some importer) :
    dispatched_async_uv_callback s p
      = some ({ s with imports_collection := s.imports_collection ++ [p] },
              [Event.call importer.fn
                [JsValue.string file, JsValue.string prev,
                 JsValue.number (s.imports_collection.length : Int)]]) := by
  unfold dispatched_async_uv_callback
  simp only [hw, hfile, hprev, himporter, List.length_append, List.length_singleton,
    Nat.add_sub_cancel]

/-- C4.  Let `sass_importer` store the requested path `file` in the context at
`p`, let the request be dispatched, and let the host answer with the handle it
was given and a value that is neither an array nor an object.  Then
`ImportedCallback` leaves in that context an import list of exactly one
entry, whose path is `file` and which has no contents and no source map, and
that list is what `sass_importer` returns to the engine. -/
theorem ImportedCallback_defers_to_requested_path (s : State) (file prev : String) (p : Nat)
    (ctx_w : sass_context_wrapper) (importer : NanCallback) (index32 : I32)
    (returned_value : JsValue)
    (hw : s.heap[p]? = some ctx_w)
    (himporter : ctx_w.importer_callback = some importer)
    (hidx : size_t_of_int32 index32 = s.imports_collection.length)
    (harray : returned_value.IsArray = false)
    (hobject : returned_value.IsObject = false) :
    ∃ (s1 s2 s3 : State) (ev1 ev2 ev3 : List Event),
      sass_importer s file prev p = some (s1, ev1) ∧
      dispatched_async_uv_callback s1 p = some (s2, ev2) ∧
      ImportedCallback s2 index32 returned_value = some (s3, ev3, JsValue.number 0) ∧
      sass_importer_result s3 p
        = some [some { path := some file, source := none, srcmap := none }] := by
  have h1 := sass_importer_eq s file prev p ctx_w hw
  generalize hw1def : ({ ctx_w with file := some file, prev := some prev }
    : sass_context_wrapper) = w1 at h1
  have hfile1 : w1.file = some file := by rw [← hw1def]
  have hprev1 : w1.prev = some prev := by rw [← hw1def]
  have himp1 : w1.importer_callback = some importer := by rw [← hw1def]; exact himporter
  have hw1 : (s.store p w1).heap[p]? = some w1 := State.store_heap_get s p ctx_w w1 hw
  have h2 := dispatched_async_uv_callback_eq (s.store p w1) p w1 file prev importer hw1
    hfile1 hprev1 himp1
  generalize hs2def : ({ (s.store p w1) with
    imports_collection := (s.store p w1).imports_collection ++ [p] } : State) = s2 at h2
  have hw2 : s2.heap[p]? = some w1 := by rw [← hs2def]; exact hw1
  have hidx2 : s2.imports_collection[size_t_of_int32 index32]? = some p := by
    rw [← hs2def, hidx]
    show (s.imports_collection ++ [p])[s.imports_collection.length]? = some p
    simp
  have h3 := ImportedCallback_valid s2 index32 returned_value p w1 hidx2 hw2
  refine ⟨_, _, _, _, _, _, h1, h2, h3, ?_⟩
  simp only [sass_importer_result, State.store_heap_get s2 p w1 _ hw2]
  rw [imports_of_other _ _ harray hobject, hfile1]

/-! ### What one operation does to the registry and to the heap -/

theorem make_callback_fields (s s1 : State) (p : Nat) (ev : List Event)
    (h : make_callback s p = some (s1, ev)) :
    s1.imports_collection = s.imports_collection ∧ s1.heap.length = s.heap.length ∧
      s1.freed = p :: s.freed := by
  unfold make_callback at h
  try dsimp only at h
  repeat' split at h
  all_goals first
    | (simp only [Option.some.injEq, Prod.mk.injEq] at h
       obtain ⟨rfl, _⟩ := h
       simp [sass_free_context_wrapper, State.store])
    | (simp at h)

theorem compile_it_fields (engine : Sass_Context → Sass_Context) (s s1 : State) (p : Nat)
    (h : compile_it engine s p = some s1) :
    s1.imports_collection = s.imports_collection ∧ s1.heap.length = s.heap.length ∧
      s1.freed = s.freed := by
  unfold compile_it at h
  try dsimp only at h
  repeat' split at h
  all_goals first
    | (simp only [Option.some.injEq] at h
       subst h
       simp [State.store])
    | (simp at h)

theorem sass_importer_fields (s s1 : State) (file prev : String) (p : Nat) (ev : List Event)
    (h : sass_importer s file prev p = some (s1, ev)) :
    s1.imports_collection = s.imports_collection ∧ s1.heap.length = s.heap.length ∧
      s1.freed = s.freed := by
  unfold sass_importer at h
  try dsimp only at h
  repeat' split at h
  all_goals first
    | (simp only [Option.some.injEq, Prod.mk.injEq] at h
       obtain ⟨rfl, _⟩ := h
       simp [State.store])
    | (simp at h)

theorem dispatched_allocated (s s1 : State) (p : Nat) (ev : List Event)
    (h : dispatched_async_uv_callback s p = some (s1, ev)) : p < s.heap.length := by
  cases hw : s.heap[p]? with
  | none => simp [dispatched_async_uv_callback, hw] at h
  | some w =>
    rcases List.getElem?_eq_some.mp hw with ⟨hp, _⟩
    exact hp

theorem dispatched_fields (s s1 : State) (p : Nat) (ev : List Event)
    (h : dispatched_async_uv_callback s p = some (s1, ev)) :
    s1.imports_collection = s.imports_collection ++ [p] ∧ s1.heap = s.heap ∧
      s1.freed = s.freed := by
  unfold dispatched_async_uv_callback at h
  try dsimp only at h
  repeat' split at h
  all_goals first
    | (simp only [Option.some.injEq, Prod.mk.injEq] at h
       obtain ⟨rfl, _⟩ := h
       simp)
    | (simp at h)

theorem ImportedCallback_fields (s s1 : State) (index32 : I32) (v : JsValue) (ev : List Event)
    (r : JsValue) (h : ImportedCallback s index32 v = some (s1, ev, r)) :
    s1.imports_collection = s.imports_collection ∧ s1.heap.length = s.heap.length ∧
      s1.freed = s.freed := by
  unfold ImportedCallback at h
  try dsimp only at h
  repeat' split at h
  all_goals first
    | (simp only [Option.some.injEq, Prod.mk.injEq] at h
       obtain ⟨rfl, _⟩ := h
       simp [State.store])
    | (simp at h)

theorem RenderSync_leave_fields (s s1 : State) (options : JsObject) (p : Nat)
    (ctx : Sass_Context) (stats : JsObject) (r : Completion)
    (h : RenderSync_leave s options p ctx = some (s1, stats, r)) :
    s1.imports_collection = s.imports_collection ∧ s1.heap = s.heap := by
  unfold RenderSync_leave at h
  try dsimp only at h
  repeat' split at h
  all_goals first
    | (simp only [Option.some.injEq, Prod.mk.injEq] at h
       obtain ⟨rfl, _⟩ := h
       simp [sass_free_context_wrapper])
    | (simp at h)

theorem RenderFileSync_leave_fields (s s1 : State) (options : JsObject) (p : Nat)
    (ctx : Sass_Context) (stats : JsObject) (r : Completion)
    (h : RenderFileSync_leave s options p ctx = some (s1, stats, r)) :
    s1.imports_collection = s.imports_collection ∧ s1.heap = s.heap := by
  unfold RenderFileSync_leave at h
  try dsimp only at h
  repeat' split at h
  all_goals first
    | (simp only [Option.some.injEq, Prod.mk.injEq] at h
       obtain ⟨rfl, _⟩ := h
       simp [sass_free_context_wrapper])
    | (simp at h)

theorem step_effect {s s1 : State} (h : Step s s1) :
    s.heap.length ≤ s1.heap.length ∧
    ∃ new : List Nat, s1.imports_collection = s.imports_collection ++ new ∧
      (new = [] ∨
        ∃ (p : Nat) (ev : List Event),
          dispatched_async_uv_callback s p = some (s1, ev) ∧ new = [p] ∧
            p < s.heap.length) := by
  cases h with
  | Render options =>
    exact ⟨by simp [NodeSass.Render, State.alloc], [],
      by simp [NodeSass.Render, State.alloc], Or.inl rfl⟩
  | RenderFile_enter options =>
    exact ⟨by simp [NodeSass.RenderFile_enter, State.alloc], [],
      by simp [NodeSass.RenderFile_enter, State.alloc], Or.inl rfl⟩
  | RenderSync_enter options =>
    exact ⟨by simp [NodeSass.RenderSync_enter, State.alloc], [],
      by simp [NodeSass.RenderSync_enter, State.alloc], Or.inl rfl⟩
  | RenderFileSync_enter options =>
    exact ⟨by simp [NodeSass.RenderFileSync_enter, State.alloc], [],
      by simp [NodeSass.RenderFileSync_enter, State.alloc], Or.inl rfl⟩
  | compile_it engine p _ he =>
    obtain ⟨h1, h2, _⟩ := compile_it_fields engine s s1 p he
    exact ⟨by omega, [], by simp [h1], Or.inl rfl⟩
  | sass_importer file prev p _ ev he =>
    obtain ⟨h1, h2, _⟩ := sass_importer_fields s s1 file prev p ev he
    exact ⟨by omega, [], by simp [h1], Or.inl rfl⟩
  | dispatched_async_uv_callback p _ ev he =>
    obtain ⟨h1, h2, _⟩ := dispatched_fields s s1 p ev he
    exact ⟨by rw [h2], [p], h1, Or.inr ⟨p, ev, he, rfl, dispatched_allocated s s1 p ev he⟩⟩
  | ImportedCallback index32 v _ ev r he =>
    obtain ⟨h1, h2, _⟩ := ImportedCallback_fields s s1 index32 v ev r he
    exact ⟨by omega, [], by simp [h1], Or.inl rfl⟩
  | make_callback p _ ev he =>
    obtain ⟨h1, h2, _⟩ := make_callback_fields s s1 p ev he
    exact ⟨by omega, [], by simp [h1], Or.inl rfl⟩
  | RenderSync_leave options p ctx _ stats r he =>
    obtain ⟨h1, h2⟩ := RenderSync_leave_fields s s1 options p ctx stats r he
    exact ⟨by rw [h2], [], by simp [h1], Or.inl rfl⟩
  | RenderFileSync_leave options p ctx _ stats r he =>
    obtain ⟨h1, h2⟩ := RenderFileSync_leave_fields s s1 options p ctx stats r he
    exact ⟨by rw [h2], [], by simp [h1], Or.inl rfl⟩

theorem step_registryAllocated {s s1 : State} (h : Step s s1) (hs : RegistryAllocated s) :
    RegistryAllocated s1 := by
  obtain ⟨hlen, new, hreg, hnew⟩ := step_effect h
  intro q hq
  rw [hreg, List.mem_append] at hq
  rcases hq with hq | hq
  · exact Nat.lt_of_lt_of_le (hs q hq) hlen
  · rcases hnew with hnil | ⟨p, _, _, hp, hlt⟩
    · rw [hnil] at hq; simp at hq
    · rw [hp, List.mem_singleton] at hq
      rw [hq]
      exact Nat.lt_of_lt_of_le hlt hlen

theorem steps_effect {s s1 : State} (h : Steps s s1) :
    s.heap.length ≤ s1.heap.length ∧
    ∃ new : List Nat, s1.imports_collection = s.imports_collection ++ new := by
  induction h with
  | refl => exact ⟨Nat.le_refl _, [], by simp⟩
  | tail _ hstep ih =>
    obtain ⟨hlen, new, hreg⟩ := ih
    obtain ⟨hlen2, new2, hreg2, _⟩ := step_effect hstep
    exact ⟨Nat.le_trans hlen hlen2, new ++ new2, by rw [hreg2, hreg, List.append_assoc]⟩

theorem steps_registryAllocated {s s1 : State} (h : Steps s s1) (hs : RegistryAllocated s) :
    RegistryAllocated s1 := by
  induction h with
  | refl => exact hs
  | tail _ hstep ih => exact step_registryAllocated hstep ih

theorem reachable_registryAllocated {s : State} (h : Reachable s) : RegistryAllocated s :=
  steps_registryAllocated h (by intro q hq; simp [State.init] at hq)

/-! ### The demo run, step by step -/

theorem demo_Render : (Render State.init demo_options).1 = demo_state_rendering := rfl

theorem demo_sass_importer :
    sass_importer demo_state_rendering "a" "stdin" 0
      = some (demo_state_requested, [Event.uv_async_send 0, Event.uv_cond_wait 0]) := rfl

theorem demo_dispatched :
    dispatched_async_uv_callback demo_state_requested 0
      = some (demo_state_dispatched,
          [Event.call (JsValue.function 3)
            [JsValue.string "a", JsValue.string "stdin", JsValue.number 0]]) := rfl

theorem demo_ImportedCallback :
    ImportedCallback demo_state_dispatched (toInt32 0) JsValue.null
      = some (demo_state_answered, [Event.uv_cond_signal 0], JsValue.number 0) := rfl

theorem demo_compile_it :
    compile_it demo_engine demo_state_answered 0 = some demo_state_compiled := rfl

theorem demo_make_callback :
    make_callback demo_state_compiled 0
      = some (demo_state_done,
          [Event.call (JsValue.function 1) [JsValue.string "b\x7bc:d\x7d", JsValue.string "\x7b\x7d"]]) := rfl

/-! ### No operation changes what ExtractOptions installed -/

theorem sameShape_refl (w : sass_context_wrapper) : SameShape w w :=
  ⟨rfl, rfl, rfl, rfl, rfl⟩

theorem sameShape_trans {w w1 w2 : sass_context_wrapper} (h1 : SameShape w w1)
    (h2 : SameShape w1 w2) : SameShape w w2 :=
  ⟨h2.1.trans h1.1, h2.2.1.trans h1.2.1, h2.2.2.1.trans h1.2.2.1,
   h2.2.2.2.1.trans h1.2.2.2.1, h2.2.2.2.2.trans h1.2.2.2.2⟩

theorem keepsShape_refl (s : State) : KeepsShape s s :=
  fun _ w hw => ⟨w, hw, sameShape_refl w⟩

theorem keepsShape_trans {s s1 s2 : State} (h1 : KeepsShape s s1)
    (h2 : KeepsShape s1 s2) : KeepsShape s s2 := by
  intro q w hw
  obtain ⟨w1, hw1, e1⟩ := h1 q w hw
  obtain ⟨w2, hw2, e2⟩ := h2 q w1 hw1
  exact ⟨w2, hw2, sameShape_trans e1 e2⟩

theorem keepsShape_of_heap_eq {s s1 : State} (h : s1.heap = s.heap) :
    KeepsShape s s1 := by
  intro q w hw
  exact ⟨w, by rw [h]; exact hw, sameShape_refl w⟩

theorem keepsShape_alloc (s : State) (w : sass_context_wrapper) :
    KeepsShape s (s.alloc w) := by
  intro q w0 hw
  have hq : q < s.heap.length := by
    rcases List.getElem?_eq_some.mp hw with ⟨h, _⟩
    exact h
  refine ⟨w0, ?_, sameShape_refl w0⟩
  simp only [State.alloc]
  rw [List.getElem?_append_left hq]
  exact hw

theorem keepsShape_store (s : State) (p : Nat) (w_old w_new : sass_context_wrapper)
    (hold : s.heap[p]? = some w_old) (hsame : SameShape w_old w_new) :
    KeepsShape s (s.store p w_new) := by
  intro q w hw
  by_cases hq : p = q
  · subst hq
    refine ⟨w_new, State.store_heap_get s p w_old w_new hold, ?_⟩
    rw [hold] at hw
    simp only [Option.some.injEq] at hw
    rw [← hw]
    exact hsame
  · refine ⟨w, ?_, sameShape_refl w⟩
    simp only [State.store]
    rw [List.getElem?_set_ne hq]
    exact hw

theorem make_callback_frame (s s1 : State) (p : Nat) (ev : List Event)
    (h : make_callback s p = some (s1, ev)) : KeepsShape s s1 := by
  cases hw : s.heap[p]? with
  | none => simp [make_callback, hw] at h
  | some ctx_w =>
    have key : ∃ w_new : sass_context_wrapper,
        SameShape ctx_w w_new ∧ s1 = sass_free_context_wrapper (s.store p w_new) p := by
      unfold make_callback at h
      simp only [hw] at h
      repeat' split at h
      all_goals first
        | (simp only [Option.some.injEq, Prod.mk.injEq] at h
           obtain ⟨rfl, _⟩ := h
           refine ⟨_, ?_, rfl⟩
           simp [SameShape, *])
        | (simp at h)
    obtain ⟨w_new, hsame, rfl⟩ := key
    exact keepsShape_trans (keepsShape_store s p ctx_w w_new hw hsame)
      (keepsShape_of_heap_eq rfl)

theorem compile_it_frame (engine : Sass_Context → Sass_Context) (s s1 : State) (p : Nat)
    (h : compile_it engine s p = some s1) : KeepsShape s s1 := by
  cases hw : s.heap[p]? with
  | none => simp [compile_it, hw] at h
  | some ctx_w =>
    have key : ∃ w_new : sass_context_wrapper,
        SameShape ctx_w w_new ∧ s1 = s.store p w_new := by
      unfold compile_it at h
      simp only [hw] at h
      repeat' split at h
      all_goals first
        | (simp only [Option.some.injEq] at h
           subst h
           refine ⟨_, ?_, rfl⟩
           simp [SameShape, *])
        | (simp at h)
    obtain ⟨w_new, hsame, rfl⟩ := key
    exact keepsShape_store s p ctx_w w_new hw hsame

theorem sass_importer_frame (s s1 : State) (file prev : String) (p : Nat) (ev : List Event)
    (h : sass_importer s file prev p = some (s1, ev)) : KeepsShape s s1 := by
  cases hw : s.heap[p]? with
  | none => simp [sass_importer, hw] at h
  | some ctx_w =>
    rw [sass_importer_eq s file prev p ctx_w hw] at h
    simp only [Option.some.injEq, Prod.mk.injEq] at h
    obtain ⟨rfl, _⟩ := h
    exact keepsShape_store s p ctx_w _ hw ⟨rfl, rfl, rfl, rfl, rfl⟩

theorem ImportedCallback_frame (s s1 : State) (index32 : I32) (v : JsValue) (ev : List Event)
    (r : JsValue) (h : ImportedCallback s index32 v = some (s1, ev, r)) :
    KeepsShape s s1 := by
  by_cases hge : size_t_of_int32 index32 ≥ s.imports_collection.length
  · simp only [ImportedCallback, hge, if_true, Option.some.injEq, Prod.mk.injEq] at h
    obtain ⟨rfl, _⟩ := h
    exact keepsShape_refl _
  · cases hp : s.imports_collection[size_t_of_int32 index32]? with
    | none => simp [ImportedCallback, hge, hp] at h
    | some p =>
      cases hw : s.heap[p]? with
      | none => simp [ImportedCallback, hge, hp, hw] at h
      | some ctx_w =>
        rw [ImportedCallback_valid s index32 v p ctx_w hp hw] at h
        simp only [Option.some.injEq, Prod.mk.injEq] at h
        obtain ⟨rfl, _⟩ := h
        exact keepsShape_store s p ctx_w _ hw ⟨rfl, rfl, rfl, rfl, rfl⟩

theorem step_keepsShape {s s1 : State} (h : Step s s1) :
    KeepsShape s s1 := by
  cases h with
  | Render options => exact keepsShape_alloc s _
  | RenderFile_enter options => exact keepsShape_alloc s _
  | RenderSync_enter options => exact keepsShape_alloc s _
  | RenderFileSync_enter options => exact keepsShape_alloc s _
  | compile_it engine p _ he => exact compile_it_frame engine s s1 p he
  | sass_importer file prev p _ ev he => exact sass_importer_frame s s1 file prev p ev he
  | dispatched_async_uv_callback p _ ev he =>
    exact keepsShape_of_heap_eq (dispatched_fields s s1 p ev he).2.1
  | ImportedCallback index32 v _ ev r he => exact ImportedCallback_frame s s1 index32 v ev r he
  | make_callback p _ ev he => exact make_callback_frame s s1 p ev he
  | RenderSync_leave options p ctx _ stats r he =>
    exact keepsShape_of_heap_eq (RenderSync_leave_fields s s1 options p ctx stats r he).2
  | RenderFileSync_leave options p ctx _ stats r he =>
    exact keepsShape_of_heap_eq (RenderFileSync_leave_fields s s1 options p ctx stats r he).2

theorem steps_keepsShape {s s1 : State} (h : Steps s s1) :
    KeepsShape s s1 := by
  induction h with
  | refl => exact keepsShape_refl _
  | tail _ hstep ih => exact keepsShape_trans ih (step_keepsShape hstep)

/-! ### Synchronous and asynchronous contexts -/

theorem ExtractOptions_success_callback (options : JsObject) (cptr : Sass_Context) (self : Nat)
    (w0 : sass_context_wrapper) (isFile isSync : Bool) :
    (ExtractOptions options cptr self w0 isFile isSync).1.success_callback
      = if isSync then w0.success_callback else some { fn := options.Get "success" } := by
  unfold ExtractOptions
  cases isFile <;> cases isSync <;> dsimp only <;> split <;> rfl

theorem ExtractOptions_async (options : JsObject) (cptr : Sass_Context) (self : Nat)
    (isFile : Bool) :
    (ExtractOptions options cptr self sass_make_context_wrapper isFile false).1.success_callback
        = some { fn := options.Get "success" } ∧
    (ExtractOptions options cptr self sass_make_context_wrapper isFile false).1.error_callback
        = some { fn := options.Get "error" } ∧
    (ExtractOptions options cptr self sass_make_context_wrapper isFile false).1.stats
        = (options.Get "stats").ToObject ∧
    (ExtractOptions options cptr self sass_make_context_wrapper isFile false).1.dctx
        = (if isFile then none else some cptr) ∧
    (ExtractOptions options cptr self sass_make_context_wrapper isFile false).1.fctx
        = (if isFile then some cptr else none) := by
  unfold ExtractOptions
  cases isFile <;> dsimp only <;> split <;> exact ⟨rfl, rfl, rfl, rfl, rfl⟩

theorem start_render_wrapper (s : State) (options : JsObject) (isFile isSync : Bool) :
    ∃ w : sass_context_wrapper,
      (start_render s options isFile isSync).heap[s.heap.length]? = some w ∧
      w.success_callback.isSome = !isSync := by
  cases isFile <;> cases isSync
  · refine ⟨_, List.getElem?_concat_length _ _, ?_⟩
    rw [ExtractOptions_success_callback]; rfl
  · refine ⟨_, List.getElem?_concat_length _ _, ?_⟩
    rw [ExtractOptions_success_callback]; rfl
  · refine ⟨_, List.getElem?_concat_length _ _, ?_⟩
    rw [ExtractOptions_success_callback]; rfl
  · refine ⟨_, List.getElem?_concat_length _ _, ?_⟩
    rw [ExtractOptions_success_callback]; rfl

theorem start_render_async_wrapper (s : State) (options : JsObject) (isFile : Bool) :
    ∃ (w : sass_context_wrapper) (cptr : Sass_Context),
      (start_render s options isFile false).heap[s.heap.length]? = some w ∧
      w.success_callback = some { fn := options.Get "success" } ∧
      w.error_callback = some { fn := options.Get "error" } ∧
      w.stats = (options.Get "stats").ToObject ∧
      w.dctx = (if isFile then none else some cptr) ∧
      w.fctx = (if isFile then some cptr else none) := by
  cases isFile
  · exact ⟨_, _, List.getElem?_concat_length _ _, ExtractOptions_async options _ _ false⟩
  · exact ⟨_, _, List.getElem?_concat_length _ _, ExtractOptions_async options _ _ true⟩

theorem start_async_eq (s : State) (options : JsObject) (isFile : Bool) (s0 : State)
    (h : start_async s options isFile = some s0) :
    s0 = start_render s options isFile false := by
  cases isFile with
  | false =>
    simp only [start_async, Bool.false_eq_true, if_false, Option.some.injEq] at h
    exact h.symm
  | true =>
    simp only [start_async, if_true, RenderFile] at h
    split at h
    · simp at h
    · simp only [Option.map_some', Option.some.injEq] at h
      exact h.symm

/-- C1, as stated, fails.  `Render` called without a `stats` option returns,
the engine runs and succeeds, and then `make_callback` calls neither
callback: `FillStatsObj` goes through the empty handle of `ctx_w->stats`. -/
theorem make_callback_without_stats :
    start_async State.init demo_options_no_stats false
      = some (Render State.init demo_options_no_stats).1 ∧
    compile_it demo_engine (Render State.init demo_options_no_stats).1 0
      = some demo_state_no_stats ∧
    make_callback demo_state_no_stats 0 = none :=
  ⟨rfl, rfl, rfl⟩

/-- C1, amended.  Take a render whose `stats` option has an object (it is
neither `undefined` nor `null`) and whose render method, `Render` or
`RenderFile`, has returned (for `RenderFile` that is: the `file` option is a
string), and let any number of operations of the binding follow (the engine
run among them).  The wrapper of that render then still has its stats object
and its context `ctx` (the file context for `RenderFile`, the data context
for `Render`), and `make_callback` on it makes exactly one call: when the
error status of `ctx` is 0 it calls the success callback of the options with
the output CSS and `stats.sourceMap` as `FillStatsObj` has just left it, and
otherwise it calls the error callback of the options with the error JSON and
the status; in that case the output CSS is no argument of the call. -/
theorem make_callback_calls_exactly_one (s : State) (options : JsObject) (isFile : Bool)
    (s0 s1 : State) (stats0 : JsObject)
    (hstart : start_async s options isFile = some s0)
    (hstats : (options.Get "stats").ToObject = some stats0)
    (hsteps : Steps s0 s1) :
    ∃ (ctx_w : sass_context_wrapper) (ctx : Sass_Context) (stats : JsObject) (s2 : State),
      s1.heap[s.heap.length]? = some ctx_w ∧
      ctx_w.stats = some stats ∧
      (if isFile then ctx_w.fctx else ctx_w.dctx) = some ctx ∧
      make_callback s1 s.heap.length = some (s2,
        [if ctx.error_status = 0 then
            Event.call (options.Get "success")
              [JsValue.string ctx.output_string,
               JsObject.Get (FillStatsObj stats ctx) "sourceMap"]
          else
            Event.call (options.Get "error")
              [JsValue.string ctx.error_json, JsValue.number ctx.error_status]]) := by
  have hs0 := start_async_eq s options isFile s0 hstart
  subst hs0
  obtain ⟨w, cptr, hw, hsucc, herr, hst0, hd, hf⟩ :=
    start_render_async_wrapper s options isFile
  obtain ⟨w1, hw1, h1, h2, h3, h4, h5⟩ := steps_keepsShape hsteps _ w hw
  rw [hsucc] at h1
  rw [herr] at h2
  rw [hst0, hstats] at h3
  rw [hd] at h4
  rw [hf] at h5
  obtain ⟨stats, hst⟩ := Option.isSome_iff_exists.mp h3
  cases isFile with
  | false =>
    simp only [Bool.false_eq_true, if_false, Option.isSome_some, Option.isSome_none] at h4 h5
    obtain ⟨ctx, hctx⟩ := Option.isSome_iff_exists.mp h4
    obtain ⟨s2, h⟩ := make_callback_eq s1 s.heap.length w1 ctx stats _ _ hw1 hst h1 h2
      (Or.inl hctx)
    exact ⟨w1, ctx, stats, s2, hw1, hst, hctx, h⟩
  | true =>
    simp only [if_true, Option.isSome_some, Option.isSome_none] at h4 h5
    obtain ⟨ctx, hctx⟩ := Option.isSome_iff_exists.mp h5
    have hnone : w1.dctx = none := by
      cases hdc : w1.dctx with
      | none => rfl
      | some d => rw [hdc] at h4; simp at h4
    obtain ⟨s2, h⟩ := make_callback_eq s1 s.heap.length w1 ctx stats _ _ hw1 hst h1 h2
      (Or.inr ⟨hnone, hctx⟩)
    exact ⟨w1, ctx, stats, s2, hw1, hst, hctx, h⟩

/-- C8.  A context is synchronous exactly when it has no success callback.
(1) On a wrapper without a success callback `ExtractOptions` installs one if
and only if `isSync` is false.  For a render started by `Render`,
`RenderFile` (`isSync` false) or by `RenderSync`, `RenderFileSync` (`isSync`
true) and any number of operations of the binding after the start:
(2) `sass_importer` on the context of that render sends the request and then
runs the event loop itself when the render is synchronous and waits on the
condition variable otherwise; (3) `ImportedCallback` with a handle of that
context stops the event loop if and only if the render is synchronous. -/
theorem sync_iff_no_success_callback (s : State) (options : JsObject) (isFile isSync : Bool)
    (s1 : State) (hsteps : Steps (start_render s options isFile isSync) s1) :
    (∀ (cptr : Sass_Context) (self : Nat) (w0 : sass_context_wrapper),
        w0.success_callback = none →
        ((ExtractOptions options cptr self w0 isFile isSync).1.success_callback.isSome = true
          ↔ isSync = false)) ∧
    (∀ file prev : String, ∃ s2 : State,
        sass_importer s1 file prev s.heap.length
          = some (s2, [Event.uv_async_send s.heap.length,
                       if isSync then Event.uv_run
                       else Event.uv_cond_wait s.heap.length])) ∧
    (∀ (index32 : I32) (returned_value : JsValue),
        s1.imports_collection[size_t_of_int32 index32]? = some s.heap.length →
        ∃ (s2 : State) (ev : List Event),
          ImportedCallback s1 index32 returned_value = some (s2, ev, JsValue.number 0) ∧
          (Event.uv_stop ∈ ev ↔ isSync = true)) := by
  obtain ⟨w, hw, hsome⟩ := start_render_wrapper s options isFile isSync
  obtain ⟨w1, hw1, hsame, _⟩ := steps_keepsShape hsteps _ w hw
  have hsome1 : w1.success_callback.isSome = !isSync := by rw [hsame]; exact hsome
  refine ⟨?_, ?_, ?_⟩
  · intro cptr self w0 h0
    rw [ExtractOptions_success_callback, h0]
    cases isSync <;> simp
  · intro file prev
    refine ⟨s1.store s.heap.length { w1 with file := some file, prev := some prev }, ?_⟩
    rw [sass_importer_eq s1 file prev _ w1 hw1, hsome1]
    cases isSync <;> rfl
  · intro index32 v hidx
    refine ⟨_, _, ImportedCallback_valid s1 index32 v _ w1 hidx hw1, ?_⟩
    have hnone : w1.success_callback.isNone = isSync := by
      cases hcb : w1.success_callback <;> rw [hcb] at hsome1 <;> cases isSync <;>
        simp_all
    rw [hnone]
    cases isSync <;> simp

/-! ### The guard on the handle -/

theorem size_t_of_int32_nonneg (index32 : I32) (h : 0 ≤ index32.val) :
    (size_t_of_int32 index32 : Int) = index32.val := by
  have h2 := index32.property.2
  unfold size_t_of_int32
  omega

theorem size_t_of_int32_neg (index32 : I32) (h : index32.val < 0) :
    vector_max_size < size_t_of_int32 index32 := by
  have h1 := index32.property.1
  unfold size_t_of_int32 vector_max_size
  omega

/-- C9.  Let the registry respect the size limit of a vector and hold
addresses of allocated wrappers only (as it does in every reachable state).
For every `index` that is negative as a 32-bit integer, or that is greater
than or equal to the number of registered contexts, `ImportedCallback`
returns `undefined`, leaves the whole state as it is (no import list is
replaced) and makes no libuv call (no signal, no stop).  For every index
below the size of the registry it returns the number 0. -/
theorem ImportedCallback_index_guard (s : State) (index32 : I32) (returned_value : JsValue)
    (hsize : s.imports_collection.length ≤ vector_max_size)
    (halloc : RegistryAllocated s) :
    ((index32.val < 0 ∨ (s.imports_collection.length : Int) ≤ index32.val) →
        ImportedCallback s index32 returned_value = some (s, [], JsValue.undefined)) ∧
    ((0 ≤ index32.val ∧ index32.val < (s.imports_collection.length : Int)) →
        ∃ (s1 : State) (ev : List Event),
          ImportedCallback s index32 returned_value = some (s1, ev, JsValue.number 0)) := by
  constructor
  · intro h
    have hge : size_t_of_int32 index32 ≥ s.imports_collection.length := by
      rcases h with h | h
      · have := size_t_of_int32_neg index32 h
        omega
      · have h0 : 0 ≤ index32.val := by omega
        have := size_t_of_int32_nonneg index32 h0
        omega
    simp only [ImportedCallback, hge, if_true]
  · intro h
    have hcast := size_t_of_int32_nonneg index32 h.1
    have hlt : size_t_of_int32 index32 < s.imports_collection.length := by omega
    have hidx : s.imports_collection[size_t_of_int32 index32]?
        = some (s.imports_collection[size_t_of_int32 index32]) :=
      List.getElem?_eq_getElem hlt
    have hp : s.imports_collection[size_t_of_int32 index32] < s.heap.length :=
      halloc _ (List.getElem_mem _)
    exact ⟨_, _, ImportedCallback_valid s index32 returned_value _ _ hidx
      (List.getElem?_eq_getElem hp)⟩

/-! ### The registry -/

theorem demo_reachable_dispatched : Reachable demo_state_dispatched := by
  have r1 : Reachable demo_state_rendering :=
    Relation.ReflTransGen.single (demo_Render ▸ Step.Render State.init demo_options)
  have r2 : Reachable demo_state_requested :=
    r1.tail (Step.sass_importer _ "a" "stdin" 0 _ _ demo_sass_importer)
  exact r2.tail (Step.dispatched_async_uv_callback _ 0 _ _ demo_dispatched)

theorem demo_reachable_done : Reachable demo_state_done := by
  have r4 : Reachable demo_state_answered :=
    demo_reachable_dispatched.tail
      (Step.ImportedCallback _ (toInt32 0) JsValue.null _ _ _ demo_ImportedCallback)
  have r5 : Reachable demo_state_compiled :=
    r4.tail (Step.compile_it _ demo_engine 0 _ demo_compile_it)
  exact r5.tail (Step.make_callback _ 0 _ _ demo_make_callback)

/-- C7, as stated, fails.  After one asynchronous render with one import has
completed (`Render`, `sass_importer`, dispatch, `ImportedCallback`, the engine,
`make_callback`) the state is reachable, the registry still holds handle 0,
and the wrapper behind it has been freed. -/
theorem registry_keeps_freed_context :
    Reachable demo_state_done ∧ 0 ∈ demo_state_done.imports_collection ∧
      ¬ demo_state_done.live 0 :=
  ⟨demo_reachable_done, by decide, by decide⟩

/-- C7, amended.  The registry is an append-only log of the dispatched
contexts.  In every reachable state every entry of the registry is the
address of a wrapper that some render allocated.  Every operation of the
binding keeps the entries that are there, in place; the only operation that
adds one is `dispatched_async_uv_callback`, which appends the context it was
run for.  No operation removes an entry: after any number of operations the
registry still starts with the entries it had. -/
theorem registry_append_only (s : State) (hs : Reachable s) :
    RegistryAllocated s ∧
    (∀ s1 : State, Step s s1 →
      ∃ new : List Nat, s1.imports_collection = s.imports_collection ++ new ∧
        (new = [] ∨
          ∃ (p : Nat) (ev : List Event),
            dispatched_async_uv_callback s p = some (s1, ev) ∧ new = [p] ∧
              p < s.heap.length)) ∧
    (∀ s1 : State, Steps s s1 →
      ∃ new : List Nat, s1.imports_collection = s.imports_collection ++ new) :=
  ⟨reachable_registryAllocated hs, fun _ hstep => (step_effect hstep).2,
   fun _ hsteps => (steps_effect hsteps).2⟩

/-- C10.  `dispatched_async_uv_callback` passes to the host importer, as third
argument, the index at which it has just appended the context to the
registry.  Whatever operations of the binding follow (other dispatches among
them), that index still holds the same context, and an `ImportedCallback` call
whose index is that handle stores the import list in that context, changes no
other wrapper and signals the condition variable of that context.  (The index
is read as a 32-bit integer, so the handles this covers are those below
2^31.) -/
theorem handle_round_trip (s : State) (p : Nat) (ctx_w : sass_context_wrapper)
    (file prev : String) (importer : NanCallback)
    (hw : s.heap[p]? = some ctx_w) (hfile : ctx_w.file = some file)
    (hprev : ctx_w.prev = some prev) (himporter : ctx_w.importer_callback = some importer) :
    ∃ s1 : State,
      dispatched_async_uv_callback s p
        = some (s1, [Event.call importer.fn
                      [JsValue.string file, JsValue.string prev,
                       JsValue.number (s.imports_collection.length : Int)]]) ∧
      s1.imports_collection[s.imports_collection.length]? = some p ∧
      ∀ s2 : State, Steps s1 s2 →
        s2.imports_collection[s.imports_collection.length]? = some p ∧
        ∀ (index32 : I32) (returned_value : JsValue),
          index32.val = (s.imports_collection.length : Int) →
          ∃ (w2 : sass_context_wrapper) (s3 : State) (ev : List Event),
            s2.heap[p]? = some w2 ∧
            ImportedCallback s2 index32 returned_value
              = some (s3, Event.uv_cond_signal p :: ev, JsValue.number 0) ∧
            s3.heap[p]?
              = some { w2 with
                  imports := some (imports_of_returned_value w2.file returned_value) } ∧
            ∀ q : Nat, q ≠ p → s3.heap[q]? = s2.heap[q]? := by
  refine ⟨_, dispatched_async_uv_callback_eq s p ctx_w file prev importer hw hfile hprev
    himporter, List.getElem?_concat_length _ _, ?_⟩
  intro s2 hsteps
  obtain ⟨hlen, new, hreg⟩ := steps_effect hsteps
  have hentry : s2.imports_collection[s.imports_collection.length]? = some p := by
    rw [hreg]
    show ((s.imports_collection ++ [p]) ++ new)[s.imports_collection.length]? = some p
    rw [List.getElem?_append_left (by simp)]
    exact List.getElem?_concat_length _ _
  refine ⟨hentry, ?_⟩
  intro index32 v hidx
  have hp : p < s2.heap.length := by
    have : p < s.heap.length := by
      rcases List.getElem?_eq_some.mp hw with ⟨h, _⟩
      exact h
    exact Nat.lt_of_lt_of_le this hlen
  have hw2 : s2.heap[p]? = some s2.heap[p] := List.getElem?_eq_getElem hp
  have hsize : size_t_of_int32 index32 = s.imports_collection.length := by
    have := size_t_of_int32_nonneg index32 (by omega)
    omega
  have hidx2 : s2.imports_collection[size_t_of_int32 index32]? = some p := by
    rw [hsize]; exact hentry
  refine ⟨s2.heap[p], _, _, hw2, ImportedCallback_valid s2 index32 v p _ hidx2 hw2, ?_, ?_⟩
  · exact State.store_heap_get s2 p _ _ hw2
  · intro q hq
    simp only [State.store]
    exact List.getElem?_set_ne (fun e => hq e.symm)

/-! ### The properties on concrete runs -/

theorem demo_steps_dispatched : Steps demo_state_rendering demo_state_dispatched :=
  (Relation.ReflTransGen.single
    (Step.sass_importer _ "a" "stdin" 0 _ _ demo_sass_importer)).tail
    (Step.dispatched_async_uv_callback _ 0 _ _ demo_dispatched)

theorem demo_steps_compiled : Steps demo_state_rendering demo_state_compiled :=
  (demo_steps_dispatched.tail
    (Step.ImportedCallback _ (toInt32 0) JsValue.null _ _ _ demo_ImportedCallback)).tail
    (Step.compile_it _ demo_engine 0 _ demo_compile_it)

theorem demo_steps_failed : Steps demo_state_rendering demo_state_failed :=
  (demo_steps_dispatched.tail
    (Step.ImportedCallback _ (toInt32 0) JsValue.null _ _ _ demo_ImportedCallback)).tail
    (Step.compile_it _ (fun _ => demo_failed_ctx) 0 _ rfl)

theorem make_callback_calls_exactly_one_witness :
    (∃ s2 : State, make_callback demo_state_compiled 0
      = some (s2, [Event.call (JsValue.function 1)
                    [JsValue.string "b\x7bc:d\x7d", JsValue.string "\x7b\x7d"]])) ∧
    (∃ s2 : State, make_callback demo_state_failed 0
      = some (s2, [Event.call (JsValue.function 2)
                    [JsValue.string "boom", JsValue.number 1]])) ∧
    (∃ (ctx_w : sass_context_wrapper) (s2 : State),
      (RenderFile_enter State.init demo_file_options).1.heap[0]? = some ctx_w ∧
      ctx_w.fctx = some (sass_make_context "a.scss") ∧
      make_callback (RenderFile_enter State.init demo_file_options).1 0
        = some (s2, [Event.call (JsValue.function 1)
                      [JsValue.string "", JsValue.string "\x7b\x7d"]])) := by
  refine ⟨?_, ?_, ?_⟩
  · obtain ⟨ctx_w, ctx, stats, s2, hw, hstats, hctx, h⟩ :=
      make_callback_calls_exactly_one State.init demo_options false demo_state_rendering
        demo_state_compiled [] rfl rfl demo_steps_compiled
    have hw0 : demo_state_compiled.heap[0]?
        = some { demo_wrapper_done with stats := some [] } := rfl
    have e := hw.symm.trans hw0
    simp only [Option.some.injEq] at e
    subst e
    simp only [Bool.false_eq_true, if_false] at hctx
    have hctx0 : ({ demo_wrapper_done with stats := some [] } : sass_context_wrapper).dctx
        = some (demo_engine (sass_make_context "@import \"a\";")) := rfl
    have e2 := hctx.symm.trans hctx0
    simp only [Option.some.injEq] at e2
    subst e2
    have hstats0 : ({ demo_wrapper_done with stats := some [] } : sass_context_wrapper).stats
        = some [] := rfl
    have e3 := hstats.symm.trans hstats0
    simp only [Option.some.injEq] at e3
    subst e3
    exact ⟨s2, h⟩
  · obtain ⟨ctx_w, ctx, stats, s2, hw, hstats, hctx, h⟩ :=
      make_callback_calls_exactly_one State.init demo_options false demo_state_rendering
        demo_state_failed [] rfl rfl demo_steps_failed
    have hw0 : demo_state_failed.heap[0]?
        = some { demo_wrapper_done with stats := some [], dctx := some demo_failed_ctx } := rfl
    have e := hw.symm.trans hw0
    simp only [Option.some.injEq] at e
    subst e
    simp only [Bool.false_eq_true, if_false] at hctx
    have hctx0 : ({ demo_wrapper_done with stats := some [], dctx := some demo_failed_ctx }
        : sass_context_wrapper).dctx = some demo_failed_ctx := rfl
    have e2 := hctx.symm.trans hctx0
    simp only [Option.some.injEq] at e2
    subst e2
    have hstats0 : ({ demo_wrapper_done with stats := some [], dctx := some demo_failed_ctx }
        : sass_context_wrapper).stats = some [] := rfl
    have e3 := hstats.symm.trans hstats0
    simp only [Option.some.injEq] at e3
    subst e3
    exact ⟨s2, h⟩
  · obtain ⟨ctx_w, ctx, stats, s2, hw, hstats, hctx, h⟩ :=
      make_callback_calls_exactly_one State.init demo_file_options true
        (RenderFile_enter State.init demo_file_options).1
        (RenderFile_enter State.init demo_file_options).1 [] rfl rfl
        Relation.ReflTransGen.refl
    have hw0 : (RenderFile_enter State.init demo_file_options).1.heap[0]?
        = some (ExtractOptions demo_file_options (sass_make_context "a.scss") 0
            sass_make_context_wrapper true false).1 := rfl
    have e := hw.symm.trans hw0
    simp only [Option.some.injEq] at e
    subst e
    simp only [if_true] at hctx
    have hctx0 : (ExtractOptions demo_file_options (sass_make_context "a.scss") 0
        sass_make_context_wrapper true false).1.fctx = some (sass_make_context "a.scss") := rfl
    have e2 := hctx.symm.trans hctx0
    simp only [Option.some.injEq] at e2
    subst e2
    have hstats0 : (ExtractOptions demo_file_options (sass_make_context "a.scss") 0
        sass_make_context_wrapper true false).1.stats = some [] := rfl
    have e3 := hstats.symm.trans hstats0
    simp only [Option.some.injEq] at e3
    subst e3
    exact ⟨_, s2, hw, hctx0, h⟩

theorem RenderSync_returns_or_throws_witness :
    (∃ (s1 : State) (stats : JsObject),
      RenderSync demo_engine State.init demo_options
        = some (s1, stats, Completion.returned (JsValue.string "b\x7bc:d\x7d"))) ∧
    (∃ (s1 : State) (stats : JsObject),
      RenderFileSync (fun _ => demo_failed_ctx) State.init demo_file_options
        = some (s1, stats, Completion.thrown (JsValue.string "boom"))) :=
  ⟨(RenderSync_returns_or_throws demo_engine State.init demo_options [] rfl).1,
   (RenderSync_returns_or_throws (fun _ => demo_failed_ctx) State.init demo_file_options []
      rfl).2 rfl⟩

theorem ImportedCallback_import_list_witness :
    ∃ (s1 : State) (ev : List Event) (imports : List (Option Sass_Import)),
      ImportedCallback demo_state_dispatched (toInt32 0) demo_answer
        = some (s1, ev, JsValue.number 0) ∧
      sass_importer_result s1 0 = some imports ∧
      imports.length = 3 ∧
      imports[0]? = some (some { path := some "f.scss", source := some "x", srcmap := none }) ∧
      imports[1]? = some none ∧
      imports[2]? = some (some { path := some "", source := none, srcmap := none }) := by
  obtain ⟨s1, ev, imports, h1, h2, _, h4⟩ :=
    ImportedCallback_import_list demo_state_dispatched (toInt32 0) demo_answer 0 _ rfl rfl
  obtain ⟨hlen, hslot⟩ := h4 _ rfl
  exact ⟨s1, ev, imports, h1, h2, hlen, hslot 0 (by decide), hslot 1 (by decide),
    hslot 2 (by decide)⟩

theorem ImportedCallback_defers_to_requested_path_witness :
    ∃ (s1 s2 s3 : State) (ev1 ev2 ev3 : List Event),
      sass_importer demo_state_rendering "a" "stdin" 0 = some (s1, ev1) ∧
      dispatched_async_uv_callback s1 0 = some (s2, ev2) ∧
      ImportedCallback s2 (toInt32 0) JsValue.null = some (s3, ev3, JsValue.number 0) ∧
      sass_importer_result s3 0
        = some [some { path := some "a", source := none, srcmap := none }] :=
  ImportedCallback_defers_to_requested_path demo_state_rendering "a" "stdin" 0
    demo_wrapper_rendering { fn := JsValue.function 3 } (toInt32 0) JsValue.null
    rfl rfl rfl rfl rfl

theorem FillStatsObj_includedFiles_witness :
    (FillStatsObj [("sourceMap", JsValue.null)] demo_failed_ctx).own "includedFiles"
        = some (JsValue.array [JsValue.string "a.scss", JsValue.string "b.scss"]) ∧
    (FillStatsObj [] (sass_make_context "a")).own "includedFiles"
        = some (JsValue.array []) :=
  ⟨(FillStatsObj_includedFiles [("sourceMap", JsValue.null)] demo_failed_ctx).1
      ["a.scss", "b.scss"] [] rfl,
   (FillStatsObj_includedFiles [] (sass_make_context "a")).2 rfl⟩

theorem FillStatsObj_sourceMap_witness :
    (FillStatsObj [("sourceMap", JsValue.null)] (sass_make_context "a")).own "sourceMap"
        = some (JsValue.string "\x7b\x7d") ∧
    (FillStatsObj [("sourceMap", JsValue.null)] demo_failed_ctx).own "sourceMap"
        = some JsValue.null :=
  ⟨(FillStatsObj_sourceMap [("sourceMap", JsValue.null)] (sass_make_context "a")).1 rfl,
   (FillStatsObj_sourceMap [("sourceMap", JsValue.null)] demo_failed_ctx).2 (by decide)⟩

theorem registry_append_only_witness :
    RegistryAllocated demo_state_requested ∧
    (∃ new : List Nat,
      demo_state_dispatched.imports_collection
        = demo_state_requested.imports_collection ++ new ∧ new = [0]) ∧
    (∃ new : List Nat,
      demo_state_done.imports_collection = demo_state_requested.imports_collection ++ new) := by
  have hreach : Reachable demo_state_requested :=
    (Relation.ReflTransGen.single (demo_Render ▸ Step.Render State.init demo_options)).tail
      (Step.sass_importer _ "a" "stdin" 0 _ _ demo_sass_importer)
  obtain ⟨h1, h2, h3⟩ := registry_append_only demo_state_requested hreach
  refine ⟨h1, ?_, ?_⟩
  · obtain ⟨new, hnew, _⟩ := h2 demo_state_dispatched
      (Step.dispatched_async_uv_callback _ 0 _ _ demo_dispatched)
    refine ⟨new, hnew, ?_⟩
    have e : ([0] : List Nat) = [] ++ new := hnew
    simpa using e.symm
  · exact h3 demo_state_done
      ((((Relation.ReflTransGen.single
        (Step.dispatched_async_uv_callback _ 0 _ _ demo_dispatched)).tail
        (Step.ImportedCallback _ (toInt32 0) JsValue.null _ _ _ demo_ImportedCallback)).tail
        (Step.compile_it _ demo_engine 0 _ demo_compile_it)).tail
        (Step.make_callback _ 0 _ _ demo_make_callback))

theorem sync_iff_no_success_callback_witness :
    (∃ s2 : State, sass_importer demo_state_dispatched "b" "a" 0
        = some (s2, [Event.uv_async_send 0, Event.uv_cond_wait 0])) ∧
    (∃ s2 : State, sass_importer (RenderSync_enter State.init demo_options).1 "b" "a" 0
        = some (s2, [Event.uv_async_send 0, Event.uv_run])) ∧
    (∃ (s2 : State) (ev : List Event),
        ImportedCallback demo_state_dispatched (toInt32 0) JsValue.null
          = some (s2, ev, JsValue.number 0) ∧
        (Event.uv_stop ∈ ev ↔ false = true)) :=
  ⟨(sync_iff_no_success_callback State.init demo_options false false demo_state_dispatched
      demo_steps_dispatched).2.1 "b" "a",
   (sync_iff_no_success_callback State.init demo_options false true
      (RenderSync_enter State.init demo_options).1 Relation.ReflTransGen.refl).2.1 "b" "a",
   (sync_iff_no_success_callback State.init demo_options false false demo_state_dispatched
      demo_steps_dispatched).2.2 (toInt32 0) JsValue.null rfl⟩

theorem ImportedCallback_index_guard_witness :
    ImportedCallback demo_state_dispatched (toInt32 (-1)) JsValue.null
        = some (demo_state_dispatched, [], JsValue.undefined) ∧
    ImportedCallback demo_state_dispatched (toInt32 1) JsValue.null
        = some (demo_state_dispatched, [], JsValue.undefined) ∧
    ∃ (s1 : State) (ev : List Event),
      ImportedCallback demo_state_dispatched (toInt32 0) JsValue.null
        = some (s1, ev, JsValue.number 0) :=
  ⟨(ImportedCallback_index_guard demo_state_dispatched (toInt32 (-1)) JsValue.null
      (by decide) (by decide)).1 (Or.inl (by decide)),
   (ImportedCallback_index_guard demo_state_dispatched (toInt32 1) JsValue.null
      (by decide) (by decide)).1 (Or.inr (by decide)),
   (ImportedCallback_index_guard demo_state_dispatched (toInt32 0) JsValue.null
      (by decide) (by decide)).2 ⟨by decide, by decide⟩⟩

theorem demo_dispatched_twice :
    dispatched_async_uv_callback demo_state_dispatched 0
      = some (demo_state_twice,
          [Event.call (JsValue.function 3)
            [JsValue.string "a", JsValue.string "stdin", JsValue.number 1]]) := rfl

theorem handle_round_trip_witness :
    dispatched_async_uv_callback demo_state_requested 0
        = some (demo_state_dispatched,
            [Event.call (JsValue.function 3)
              [JsValue.string "a", JsValue.string "stdin", JsValue.number 0]]) ∧
    demo_state_twice.imports_collection[0]? = some 0 ∧
    ∃ (s3 : State) (ev : List Event),
      ImportedCallback demo_state_twice (toInt32 0) JsValue.null
        = some (s3, Event.uv_cond_signal 0 :: ev, JsValue.number 0) := by
  obtain ⟨s1, h1, _, h3⟩ :=
    handle_round_trip demo_state_requested 0 _ "a" "stdin" { fn := JsValue.function 3 }
      rfl rfl rfl rfl
  have hs1 : s1 = demo_state_dispatched := by
    have h := h1.symm.trans demo_dispatched
    simp only [Option.some.injEq, Prod.mk.injEq] at h
    exact h.1
  subst hs1
  obtain ⟨h4, h5⟩ := h3 demo_state_twice
    (Relation.ReflTransGen.single
      (Step.dispatched_async_uv_callback _ 0 _ _ demo_dispatched_twice))
  obtain ⟨_, s3, ev, _, h6, _⟩ := h5 (toInt32 0) JsValue.null rfl
  exact ⟨demo_dispatched, h4, s3, ev, h6⟩

end NodeSass
